import Mathlib

/-!
Shallow embedding of `src/src/lib/scweet-service.py`, a FastAPI service that
wraps the Scweet and Twikit scraping libraries behind six lookup endpoints
with a Redis cache-aside layer.  Pure Python helpers become Lean functions;
the Redis client and the two external libraries become explicit parameters
(`CacheState`, `Env`); each endpoint handler is a function from an
environment, a cache state and a request to a result together with its
effect trace (cache reads, cache writes with TTL, library calls).
-/

namespace ScweetService

/-- Decidable equality for `Except`, used to evaluate witnesses. -/
instance exceptDecEq {ε α : Type} [DecidableEq ε] [DecidableEq α] :
    DecidableEq (Except ε α) := fun a b =>
  match a, b with
  | .ok x, .ok y =>
    if h : x = y then .isTrue (by rw [h]) else .isFalse (by simp [h])
  | .error x, .error y =>
    if h : x = y then .isTrue (by rw [h]) else .isFalse (by simp [h])
  | .ok _, .error _ => .isFalse (by simp)
  | .error _, .ok _ => .isFalse (by simp)

/-- Python-level exceptions that can cross an endpoint's `try` block. -/
inductive PyErr where
  | valueError (msg : String)
  | http (status : Nat) (detail : String)
  | other
deriving DecidableEq, Repr

/-- An HTTP error response produced by a handler (`HTTPException`). -/
structure HTTPErr where
  status : Nat
  detail : String
deriving DecidableEq, Repr

/-- Request body of `POST /tweet` and `POST /twikit/tweet` (`TweetRequest`). -/
structure TweetRequest where
  tweet_url : String
  include_engagement : Bool := true
  include_user_info : Bool := true
deriving DecidableEq, Repr

/-- The `author` dictionary embedded in a tweet response. -/
structure Author where
  username : String
  display_name : String
  verified : Bool
  followers_count : Int
  following_count : Int
deriving DecidableEq, Repr

/-- The `engagement` dictionary embedded in a tweet response. -/
structure EngagementCounts where
  likes : Int
  retweets : Int
  replies : Int
deriving DecidableEq, Repr

/-- Response model of the tweet endpoints (`TweetResponse`). -/
structure TweetResponse where
  tweet_id : String
  content : String
  author : Author
  engagement : EngagementCounts
  created_at : String
  source : String
  is_from_layeredge_community : Bool
deriving DecidableEq, Repr

/-- Request body of `POST /user` and `POST /twikit/user` (`UserInfoRequest`). -/
structure UserInfoRequest where
  username : String
  include_followers : Bool := false
deriving DecidableEq, Repr

/-- Response model of the user endpoints (`UserInfoResponse`). -/
structure UserInfoResponse where
  username : String
  display_name : String
  bio : String
  followers_count : Int
  following_count : Int
  verified : Bool
  location : Option String
  website : Option String
  join_date : Option String
deriving DecidableEq, Repr

/-- Request body of the engagement endpoints (`EngagementRequest`). -/
structure EngagementRequest where
  tweet_url : String
deriving DecidableEq, Repr

/-- Response model of the engagement endpoints (`EngagementResponse`). -/
structure EngagementResponse where
  likes : Int
  retweets : Int
  replies : Int
  timestamp : String
  source : String
deriving DecidableEq, Repr

/-- A record stored in the Redis cache: the serialized form of one of the
three response models (the service only ever writes serialized responses). -/
inductive CacheVal where
  | tweet (t : TweetResponse)
  | eng (e : EngagementResponse)
  | user (u : UserInfoResponse)
deriving DecidableEq, Repr

/-- Deserializing a cached record as `TweetResponse(**cached_data)`:
a record of a different shape raises a validation error (modelled `none`). -/
def decodeTweet : CacheVal → Option TweetResponse
  | .tweet t => some t
  | _ => none

/-- Deserializing a cached record as `EngagementResponse(**cached_data)`. -/
def decodeEng : CacheVal → Option EngagementResponse
  | .eng e => some e
  | _ => none

/-- Deserializing a cached record as `UserInfoResponse(**cached_data)`. -/
def decodeUser : CacheVal → Option UserInfoResponse
  | .user u => some u
  | _ => none

/-- State of the Redis cache layer: the client may be unset (`redis_client`
is `None`), every call may raise (connection failure), or it holds an
association list of key/value entries (most recent write first). -/
inductive CacheState where
  | absent
  | failing
  | ok (entries : List (String × CacheVal))
deriving DecidableEq, Repr

/-- One `setex` invocation: key, serialized record, TTL in seconds. -/
structure CacheWrite where
  key : String
  val : CacheVal
  ttl : Nat
deriving DecidableEq, Repr

/-- A call into one of the two external libraries. -/
inductive LibCall where
  | scrape (from_account : String)
  | getUserInformation (handle : String)
  | getTweetById (tweet_id : String)
  | getUserByScreenName (username : String)
deriving DecidableEq, Repr

/-- `get_cached_data`: returns `None` when the client is unset or the read
raises; otherwise the JSON-decoded entry for the key, if any. -/
def get_cached_data (cache : CacheState) (key : String) : Option CacheVal :=
  match cache with
  | .ok entries => entries.lookup key
  | _ => none

/-- `set_cached_data`: swallows failures (unset client or raising write);
on a healthy cache it stores the record under the key.  The second component
records the attempted write together with the TTL argument. -/
def set_cached_data (cache : CacheState) (key : String) (data : CacheVal)
    (ttl : Nat) : CacheState × List CacheWrite :=
  match cache with
  | .ok entries => (.ok ((key, data) :: entries), [⟨key, data, ttl⟩])
  | c => (c, [⟨key, data, ttl⟩])

/-- A tweet dictionary returned by `scweet_instance.scrape` (fields that
`tweet_data.get(...)` may find absent are `Option`s). -/
structure ScweetTweet where
  tweetId : Option String
  text : Option String
  likes : Option Int
  retweets : Option Int
  replies : Option Int
  timestamp : Option String
deriving DecidableEq, Repr

/-- A user dictionary returned by `scweet_instance.get_user_information`. -/
structure ScweetUser where
  name : Option String
  verified : Option Bool
  followers : Option Int
  following : Option Int
  description : Option String
  location : Option String
  website : Option String
  join_date : Option String
deriving DecidableEq, Repr

/-- A `twikit` user object (its string/int/bool attributes are plain values
of the library's data model). -/
structure TwikitUser where
  name : String
  screen_name : String
  verified : Bool
  followers_count : Int
  following_count : Int
  description : Option String
  location : Option String
  url : Option String
  created_at : Option String
deriving DecidableEq, Repr

/-- A `twikit` tweet object; fields the handlers guard with `or` defaults
or `if` checks are `Option`s.  `created_at` holds the `isoformat()` string. -/
structure TwikitTweet where
  text : Option String
  user : Option TwikitUser
  favorite_count : Option Int
  retweet_count : Option Int
  reply_count : Option Int
  created_at : Option String
deriving DecidableEq, Repr

/-- The world outside the handlers: whether the two library clients were
initialised at startup, the (deterministic, per-argument) behaviour of each
library call — `.error ()` models a raised exception — and the current
`datetime.utcnow().isoformat()` string. -/
structure Env where
  scweetReady : Bool
  twikitReady : Bool
  scrape : String → Except Unit (List ScweetTweet)
  getUserInformation : String → Except Unit (Option ScweetUser)
  getTweetById : String → Except Unit (Option TwikitTweet)
  getUserByScreenName : String → Except Unit (Option TwikitUser)
  now : String

/-- Result of running a handler: the HTTP-level (or Python-level) outcome
plus the effect trace, in chronological order. -/
structure Out (ε ρ : Type) where
  result : Except ε ρ
  cache : CacheState
  reads : List String
  writes : List CacheWrite
  calls : List LibCall

/-- `'/status/'` as a character list. -/
def statusL : List Char := "/status/".data

/-- One attempt of the regex `/status/(\d+)` at the head of `l`: requires
the literal `/status/` followed by at least one digit, and captures the
maximal digit run. -/
def matchStatusAt (l : List Char) : Option (List Char) :=
  if statusL.isPrefixOf l then
    match l.drop 8 with
    | [] => none
    | d :: rest => if d.isDigit then some (d :: rest.takeWhile Char.isDigit) else none
  else none

/-- `re.search(r'/status/(\d+)', ...)`: try the pattern at each position,
left to right. -/
def searchStatus : List Char → Option (List Char)
  | [] => none
  | c :: cs =>
    match matchStatusAt (c :: cs) with
    | some r => some r
    | none => searchStatus cs

/-- `extract_tweet_id`: the captured digits of the leftmost regex match,
or `ValueError("Invalid tweet URL format")`. -/
def extract_tweet_id (tweet_url : String) : Except PyErr String :=
  match searchStatus tweet_url.data with
  | some r => .ok ⟨r⟩
  | none => .error (.valueError "Invalid tweet URL format")

/-- One attempt of the regex `(?:x\.com|twitter\.com)/([^/]+)/status/` at
the head of `l`: one of the two literal hosts, a slash, a nonempty run of
non-slash characters (captured), then the literal `/status/`. -/
def matchUserAt (l : List Char) : Option (List Char) :=
  let tryHost (host : List Char) : Option (List Char) :=
    if host.isPrefixOf l then
      let rest := l.drop host.length
      let seg := rest.takeWhile (fun c => c != '/')
      if seg ≠ [] ∧ statusL.isPrefixOf (rest.drop seg.length) then some seg
      else none
    else none
  match tryHost "x.com/".data with
  | some r => some r
  | none => tryHost "twitter.com/".data

/-- `re.search` for the username pattern, left to right. -/
def searchUser : List Char → Option (List Char)
  | [] => none
  | c :: cs =>
    match matchUserAt (c :: cs) with
    | some r => some r
    | none => searchUser cs

/-- `extract_username`: the captured segment of the leftmost match, or
`ValueError("Cannot extract username from URL")`. -/
def extract_username (tweet_url : String) : Except PyErr String :=
  match searchUser tweet_url.data with
  | some r => .ok ⟨r⟩
  | none => .error (.valueError "Cannot extract username from URL")

/-- Boolean substring containment, Python's `needle in hay`. -/
def containsSub (needle : List Char) : List Char → Bool
  | [] => needle.isPrefixOf ([] : List Char)
  | c :: t => needle.isPrefixOf (c :: t) || containsSub needle t

/-- Python's `str.lower()`, character by character. -/
def lowerL (l : List Char) : List Char := l.map Char.toLower

/-- `check_layeredge_community`: the lower-cased content contains
`@layeredge` or `$edgen`. -/
def check_layeredge_community (content : String) : Bool :=
  let content_lower := lowerL content.data
  containsSub "@layeredge".data content_lower ||
    containsSub "$edgen".data content_lower

/-- The `response_data` dictionary built by `get_tweet_data` (lines
255–273): field renaming with defaults for absent source fields. -/
def mkTweetResponse (tweet_id username : String) (tweet_data : ScweetTweet)
    (user_info : Option ScweetUser) (now : String) : TweetResponse :=
  { tweet_id := tweet_id
    content := tweet_data.text.getD ""
    author :=
      { username := username
        display_name := (user_info.bind ScweetUser.name).getD username
        verified := (user_info.bind ScweetUser.verified).getD false
        followers_count := (user_info.bind ScweetUser.followers).getD 0
        following_count := (user_info.bind ScweetUser.following).getD 0 }
    engagement :=
      { likes := tweet_data.likes.getD 0
        retweets := tweet_data.retweets.getD 0
        replies := tweet_data.replies.getD 0 }
    created_at := tweet_data.timestamp.getD now
    source := "scweet"
    is_from_layeredge_community :=
      check_layeredge_community (tweet_data.text.getD "") }

/-- The `response_data` dictionary built by `get_user_info` (lines 345–355). -/
def mkUserResponse (username : String) (user_info : ScweetUser) :
    UserInfoResponse :=
  { username := username
    display_name := user_info.name.getD username
    bio := user_info.description.getD ""
    followers_count := user_info.followers.getD 0
    following_count := user_info.following.getD 0
    verified := user_info.verified.getD false
    location := user_info.location
    website := user_info.website
    join_date := user_info.join_date }

/-- Python's `s or d` for strings: `d` when `s` is empty. -/
def pyOrS (s d : String) : String := if s = "" then d else s

/-- The `response_data` dictionary built by `get_tweet_data_twikit`
(lines 401–419). -/
def mkTwikitTweetResponse (tweet_id : String) (tweet : TwikitTweet)
    (include_user_info : Bool) (now : String) : TweetResponse :=
  let screen : String :=
    match tweet.user with
    | some u => u.screen_name
    | none => "unknown"
  let user_info : Option TwikitUser :=
    if include_user_info then tweet.user else none
  { tweet_id := tweet_id
    content := tweet.text.getD ""
    author :=
      { username := screen
        display_name := match user_info with | some u => u.name | none => screen
        verified := match user_info with | some u => u.verified | none => false
        followers_count :=
          match user_info with | some u => u.followers_count | none => 0
        following_count :=
          match user_info with | some u => u.following_count | none => 0 }
    engagement :=
      { likes := tweet.favorite_count.getD 0
        retweets := tweet.retweet_count.getD 0
        replies := tweet.reply_count.getD 0 }
    created_at := tweet.created_at.getD now
    source := "twikit"
    is_from_layeredge_community :=
      check_layeredge_community (tweet.text.getD "") }

/-- The `response_data` dictionary built by `get_user_info_twikit`
(lines 489–499). -/
def mkTwikitUserResponse (username : String) (user : TwikitUser) :
    UserInfoResponse :=
  { username := username
    display_name := pyOrS user.name username
    bio := user.description.getD ""
    followers_count := user.followers_count
    following_count := user.following_count
    verified := user.verified
    location := user.location
    website := user.url
    join_date := user.created_at }

/-- Lines 240–252 of `get_tweet_data`: the user-info dictionary, empty when
not requested, when the library call raises, or when the handle is missing. -/
def scweetUserInfo (env : Env) (include_user_info : Bool) (username : String) :
    Option ScweetUser :=
  if include_user_info then
    match env.getUserInformation username with
    | .error _ => none
    | .ok r => r
  else none

/-- The library calls issued by the user-info step of `get_tweet_data`. -/
def scweetUserInfoCalls (include_user_info : Bool) (username : String) :
    List LibCall :=
  if include_user_info then [.getUserInformation username] else []

/-- The `try` block of `get_tweet_data` (`POST /tweet`): extract the
identifiers, consult the cache, scrape via Scweet, locate the tweet by
`tweetId` suffix, optionally fetch user info (failures there are swallowed),
build the response and cache it for 300 s. -/
def get_tweet_data_body (env : Env) (cache : CacheState) (req : TweetRequest) :
    Out PyErr TweetResponse :=
  match extract_tweet_id req.tweet_url with
  | .error e => ⟨.error e, cache, [], [], []⟩
  | .ok tweet_id =>
    match extract_username req.tweet_url with
    | .error e => ⟨.error e, cache, [], [], []⟩
    | .ok username =>
      let cache_key := "tweet:" ++ tweet_id
      match get_cached_data cache cache_key with
      | some cv =>
        match decodeTweet cv with
        | some t => ⟨.ok t, cache, [cache_key], [], []⟩
        | none => ⟨.error .other, cache, [cache_key], [], []⟩
      | none =>
        match env.scrape username with
        | .error _ => ⟨.error .other, cache, [cache_key], [], [.scrape username]⟩
        | .ok results =>
          match results.find?
              (fun tw => tweet_id.data.isSuffixOf (tw.tweetId.getD "").data) with
          | none =>
            ⟨.error (.http 404 "Tweet not found in recent tweets"), cache,
              [cache_key], [], [.scrape username]⟩
          | some tweet_data =>
            let user_info := scweetUserInfo env req.include_user_info username
            let response := mkTweetResponse tweet_id username tweet_data user_info env.now
            let s := set_cached_data cache cache_key (.tweet response) 300
            ⟨.ok response, s.1, [cache_key], s.2,
              .scrape username :: scweetUserInfoCalls req.include_user_info username⟩

/-- `except ValueError → 400 str(e); except Exception → 500 fixed`. -/
def wrapVE (fixed : String) : Except PyErr ρ → Except HTTPErr ρ
  | .ok v => .ok v
  | .error (.valueError m) => .error ⟨400, m⟩
  | .error _ => .error ⟨500, fixed⟩

/-- `except Exception → 500 fixed` (no `ValueError` clause). -/
def wrapAll (fixed : String) : Except PyErr ρ → Except HTTPErr ρ
  | .ok v => .ok v
  | .error _ => .error ⟨500, fixed⟩

/-- The `POST /tweet` handler: 503 when Scweet is uninitialised, otherwise
the body with its two `except` clauses. -/
def get_tweet_data (env : Env) (cache : CacheState) (req : TweetRequest) :
    Out HTTPErr TweetResponse :=
  if env.scweetReady then
    let o := get_tweet_data_body env cache req
    ⟨wrapVE "Failed to scrape tweet data" o.result, o.cache, o.reads, o.writes, o.calls⟩
  else ⟨.error ⟨503, "Scweet service not initialized"⟩, cache, [], [], []⟩

/-- The `try` block of `get_engagement_metrics` (`POST /engagement`):
consult the cache, then delegate to the full `get_tweet_data` handler
(an `HTTPException` it raises is caught by the broad `except`), then cache
the engagement record for 60 s. -/
def get_engagement_metrics_body (env : Env) (cache : CacheState)
    (req : EngagementRequest) : Out PyErr EngagementResponse :=
  match extract_tweet_id req.tweet_url with
  | .error e => ⟨.error e, cache, [], [], []⟩
  | .ok tweet_id =>
    let cache_key := "engagement:" ++ tweet_id
    match get_cached_data cache cache_key with
    | some cv =>
      match decodeEng cv with
      | some r => ⟨.ok r, cache, [cache_key], [], []⟩
      | none => ⟨.error .other, cache, [cache_key], [], []⟩
    | none =>
      let inner := get_tweet_data env cache ⟨req.tweet_url, true, true⟩
      match inner.result with
      | .error e =>
        ⟨.error (.http e.status e.detail), inner.cache, cache_key :: inner.reads,
          inner.writes, inner.calls⟩
      | .ok t =>
        let response : EngagementResponse :=
          ⟨t.engagement.likes, t.engagement.retweets, t.engagement.replies,
            env.now, "scweet"⟩
        let s := set_cached_data inner.cache cache_key (.eng response) 60
        ⟨.ok response, s.1, cache_key :: inner.reads, inner.writes ++ s.2,
          inner.calls⟩

/-- The `POST /engagement` handler. -/
def get_engagement_metrics (env : Env) (cache : CacheState)
    (req : EngagementRequest) : Out HTTPErr EngagementResponse :=
  if env.scweetReady then
    let o := get_engagement_metrics_body env cache req
    ⟨wrapAll "Failed to get engagement metrics" o.result, o.cache, o.reads,
      o.writes, o.calls⟩
  else ⟨.error ⟨503, "Scweet service not initialized"⟩, cache, [], [], []⟩

/-- The `try` block of `get_user_info` (`POST /user`): consult the cache,
call `get_user_information`, 404 when the handle is missing (re-caught by
the broad `except`), build the response and cache it for 1800 s. -/
def get_user_info_body (env : Env) (cache : CacheState) (req : UserInfoRequest) :
    Out PyErr UserInfoResponse :=
  let cache_key := "user:" ++ req.username
  match get_cached_data cache cache_key with
  | some cv =>
    match decodeUser cv with
    | some r => ⟨.ok r, cache, [cache_key], [], []⟩
    | none => ⟨.error .other, cache, [cache_key], [], []⟩
  | none =>
    match env.getUserInformation req.username with
    | .error _ =>
      ⟨.error .other, cache, [cache_key], [], [.getUserInformation req.username]⟩
    | .ok none =>
      ⟨.error (.http 404 "User not found or profile is private"), cache,
        [cache_key], [], [.getUserInformation req.username]⟩
    | .ok (some u) =>
      let response := mkUserResponse req.username u
      let s := set_cached_data cache cache_key (.user response) 1800
      ⟨.ok response, s.1, [cache_key], s.2, [.getUserInformation req.username]⟩

/-- The `POST /user` handler. -/
def get_user_info (env : Env) (cache : CacheState) (req : UserInfoRequest) :
    Out HTTPErr UserInfoResponse :=
  if env.scweetReady then
    let o := get_user_info_body env cache req
    ⟨wrapAll "Failed to get user information" o.result, o.cache, o.reads,
      o.writes, o.calls⟩
  else ⟨.error ⟨503, "Scweet service not initialized"⟩, cache, [], [], []⟩

/-- The `try` block of `get_tweet_data_twikit` (`POST /twikit/tweet`). -/
def get_tweet_data_twikit_body (env : Env) (cache : CacheState)
    (req : TweetRequest) : Out PyErr TweetResponse :=
  match extract_tweet_id req.tweet_url with
  | .error e => ⟨.error e, cache, [], [], []⟩
  | .ok tweet_id =>
    let cache_key := "twikit_tweet:" ++ tweet_id
    match get_cached_data cache cache_key with
    | some cv =>
      match decodeTweet cv with
      | some t => ⟨.ok t, cache, [cache_key], [], []⟩
      | none => ⟨.error .other, cache, [cache_key], [], []⟩
    | none =>
      match env.getTweetById tweet_id with
      | .error _ =>
        ⟨.error .other, cache, [cache_key], [], [.getTweetById tweet_id]⟩
      | .ok none =>
        ⟨.error (.http 404 "Tweet not found via Twikit"), cache, [cache_key],
          [], [.getTweetById tweet_id]⟩
      | .ok (some tweet) =>
        let response :=
          mkTwikitTweetResponse tweet_id tweet req.include_user_info env.now
        let s := set_cached_data cache cache_key (.tweet response) 300
        ⟨.ok response, s.1, [cache_key], s.2, [.getTweetById tweet_id]⟩

/-- The `POST /twikit/tweet` handler. -/
def get_tweet_data_twikit (env : Env) (cache : CacheState) (req : TweetRequest) :
    Out HTTPErr TweetResponse :=
  if env.twikitReady then
    let o := get_tweet_data_twikit_body env cache req
    ⟨wrapVE "Failed to fetch tweet data via Twikit" o.result, o.cache, o.reads,
      o.writes, o.calls⟩
  else ⟨.error ⟨503, "Twikit service not initialized"⟩, cache, [], [], []⟩

/-- The `try` block of `get_engagement_metrics_twikit`
(`POST /twikit/engagement`). -/
def get_engagement_metrics_twikit_body (env : Env) (cache : CacheState)
    (req : EngagementRequest) : Out PyErr EngagementResponse :=
  match extract_tweet_id req.tweet_url with
  | .error e => ⟨.error e, cache, [], [], []⟩
  | .ok tweet_id =>
    let cache_key := "twikit_engagement:" ++ tweet_id
    match get_cached_data cache cache_key with
    | some cv =>
      match decodeEng cv with
      | some r => ⟨.ok r, cache, [cache_key], [], []⟩
      | none => ⟨.error .other, cache, [cache_key], [], []⟩
    | none =>
      match env.getTweetById tweet_id with
      | .error _ =>
        ⟨.error .other, cache, [cache_key], [], [.getTweetById tweet_id]⟩
      | .ok none =>
        ⟨.error (.http 404 "Tweet not found via Twikit"), cache, [cache_key],
          [], [.getTweetById tweet_id]⟩
      | .ok (some tweet) =>
        let response : EngagementResponse :=
          ⟨tweet.favorite_count.getD 0, tweet.retweet_count.getD 0,
            tweet.reply_count.getD 0, env.now, "twikit"⟩
        let s := set_cached_data cache cache_key (.eng response) 60
        ⟨.ok response, s.1, [cache_key], s.2, [.getTweetById tweet_id]⟩

/-- The `POST /twikit/engagement` handler. -/
def get_engagement_metrics_twikit (env : Env) (cache : CacheState)
    (req : EngagementRequest) : Out HTTPErr EngagementResponse :=
  if env.twikitReady then
    let o := get_engagement_metrics_twikit_body env cache req
    ⟨wrapAll "Failed to get engagement metrics via Twikit" o.result, o.cache,
      o.reads, o.writes, o.calls⟩
  else ⟨.error ⟨503, "Twikit service not initialized"⟩, cache, [], [], []⟩

/-- The `try` block of `get_user_info_twikit` (`POST /twikit/user`). -/
def get_user_info_twikit_body (env : Env) (cache : CacheState)
    (req : UserInfoRequest) : Out PyErr UserInfoResponse :=
  let cache_key := "twikit_user:" ++ req.username
  match get_cached_data cache cache_key with
  | some cv =>
    match decodeUser cv with
    | some r => ⟨.ok r, cache, [cache_key], [], []⟩
    | none => ⟨.error .other, cache, [cache_key], [], []⟩
  | none =>
    match env.getUserByScreenName req.username with
    | .error _ =>
      ⟨.error .other, cache, [cache_key], [], [.getUserByScreenName req.username]⟩
    | .ok none =>
      ⟨.error (.http 404 "User not found via Twikit"), cache, [cache_key], [],
        [.getUserByScreenName req.username]⟩
    | .ok (some user) =>
      let response := mkTwikitUserResponse req.username user
      let s := set_cached_data cache cache_key (.user response) 1800
      ⟨.ok response, s.1, [cache_key], s.2, [.getUserByScreenName req.username]⟩

/-- The `POST /twikit/user` handler. -/
def get_user_info_twikit (env : Env) (cache : CacheState) (req : UserInfoRequest) :
    Out HTTPErr UserInfoResponse :=
  if env.twikitReady then
    let o := get_user_info_twikit_body env cache req
    ⟨wrapAll "Failed to get user information via Twikit" o.result, o.cache,
      o.reads, o.writes, o.calls⟩
  else ⟨.error ⟨503, "Twikit service not initialized"⟩, cache, [], [], []⟩

/-! Concrete fixtures used by witnesses and counterexamples. -/

/-- A concrete Scweet tweet dictionary. -/
def tdC : ScweetTweet :=
  ⟨some "123", some "hello @LayerEdge", some 5, some 2, some 1,
    some "2024-01-01T00:00:00"⟩

/-- A concrete Scweet user dictionary. -/
def suC : ScweetUser :=
  ⟨some "User One", some true, some 10, some 7, some "a bio", none, none, none⟩

/-- A concrete Twikit user object. -/
def tuC : TwikitUser :=
  ⟨"User One", "u", true, 10, 7, some "a bio", none, none,
    some "2020-01-01T00:00:00"⟩

/-- A concrete Twikit tweet object. -/
def ttC : TwikitTweet :=
  ⟨some "hello $EDGEN", some tuC, some 4, some 3, some 2,
    some "2024-01-01T00:00:00"⟩

/-- An environment where both libraries are up and every call succeeds. -/
def envC : Env :=
  { scweetReady := true
    twikitReady := true
    scrape := fun _ => .ok [tdC]
    getUserInformation := fun _ => .ok (some suC)
    getTweetById := fun _ => .ok (some ttC)
    getUserByScreenName := fun _ => .ok (some tuC)
    now := "2024-01-02T00:00:00" }

/-- `envC` with the Scweet scrape raising. -/
def envScrapeFail : Env := { envC with scrape := fun _ => .error () }

/-- A concrete well-formed tweet request. -/
def reqC : TweetRequest := ⟨"https://x.com/u/status/123", true, true⟩

/-- The tweet response `envC` produces for `reqC` on a cache miss. -/
def rC : TweetResponse := mkTweetResponse "123" "u" tdC (some suC) envC.now

/-- A cache holding the serialized `rC` under its tweet key. -/
def cacheHitC : CacheState := .ok [("tweet:123", .tweet rC)]

/-- A concrete engagement request for the same tweet. -/
def reqEngC : EngagementRequest := ⟨"https://x.com/u/status/123"⟩

/-- The engagement response `envC` produces for `reqEngC` on a cache miss. -/
def rEngC : EngagementResponse := ⟨5, 2, 1, envC.now, "scweet"⟩

/-- A concrete user-info request. -/
def uReqC : UserInfoRequest := ⟨"u", false⟩

/-- A Scweet tweet dictionary with every optional field absent. -/
def tdNone : ScweetTweet := ⟨some "999", none, none, none, none, none⟩

/-- A Scweet user dictionary with every field absent. -/
def suNone : ScweetUser := ⟨none, none, none, none, none, none, none, none⟩

/-- The TTL the spec assigns to each cached record kind. -/
def ttlOfVal : CacheVal → Nat
  | .tweet _ => 300
  | .eng _ => 60
  | .user _ => 1800

example : extract_tweet_id "https://x.com/u/status/123" = .ok "123" := by decide
example : extract_username "https://x.com/u/status/123" = .ok "u" := by decide
example : extract_tweet_id "https://x.com/u/nothing" =
    .error (.valueError "Invalid tweet URL format") := by decide
example : extract_username "foo/status/123" =
    .error (.valueError "Cannot extract username from URL") := by decide
example : extract_tweet_id "foo/status/123" = .ok "123" := by decide
example : check_layeredge_community "hello @LayerEdge" = true := by decide
example : check_layeredge_community "buy $EdGeN now" = true := by decide
example : check_layeredge_community "nothing here" = false := by decide
example :
    (get_tweet_data envC (.ok []) reqC).result =
      .ok (mkTweetResponse "123" "u" tdC (some suC) envC.now) := by decide

/-! Helper lemmas about the tweet-id regex embedding. -/

theorem statusL_length : statusL.length = 8 := rfl

theorem matchStatusAt_isSome_iff (l : List Char) :
    (matchStatusAt l).isSome = true ↔
      ∃ d b, l = statusL ++ d :: b ∧ d.isDigit = true := by
  unfold matchStatusAt
  by_cases hp : statusL.isPrefixOf l = true
  · obtain ⟨t, ht⟩ := List.isPrefixOf_iff_prefix.mp hp
    subst ht
    rw [if_pos hp, List.drop_left' statusL_length]
    cases t with
    | nil =>
      simp only [Option.isSome_none]
      constructor
      · intro h; cases h
      · rintro ⟨d, b, heq, -⟩
        have : ([] : List Char) = d :: b := List.append_cancel_left heq
        cases this
    | cons d rest =>
      by_cases hd : d.isDigit = true
      · simp only [hd, if_pos, Option.isSome_some, true_iff]
        exact ⟨d, rest, rfl, hd⟩
      · simp only [if_neg hd, Option.isSome_none]
        constructor
        · intro h; cases h
        · rintro ⟨d', b', heq, hd'⟩
          have : d :: rest = d' :: b' := List.append_cancel_left heq
          cases this
          exact absurd hd' hd
  · rw [if_neg hp]
    simp only [Option.isSome_none]
    constructor
    · intro h; cases h
    · rintro ⟨d, b, heq, -⟩
      exact (hp (List.isPrefixOf_iff_prefix.mpr ⟨d :: b, heq.symm⟩)).elim

theorem matchStatusAt_eq_some {l r : List Char} (h : matchStatusAt l = some r) :
    ∃ b, l = statusL ++ r ++ b ∧ r ≠ [] ∧ r.all Char.isDigit = true ∧
      (∀ c, b.head? = some c → c.isDigit = false) := by
  unfold matchStatusAt at h
  by_cases hp : statusL.isPrefixOf l = true
  · obtain ⟨t, ht⟩ := List.isPrefixOf_iff_prefix.mp hp
    subst ht
    rw [if_pos hp, List.drop_left' statusL_length] at h
    cases t with
    | nil => cases h
    | cons d rest =>
      change (if d.isDigit = true then
        some (d :: rest.takeWhile Char.isDigit) else none) = some r at h
      by_cases hd : d.isDigit = true
      · rw [if_pos hd] at h
        cases h
        refine ⟨rest.dropWhile Char.isDigit, ?_, by simp, ?_, ?_⟩
        · rw [List.append_assoc, List.cons_append]
          rw [show d :: rest =
            d :: (rest.takeWhile Char.isDigit ++ rest.dropWhile Char.isDigit) by
              rw [List.takeWhile_append_dropWhile]]
        · simp [List.all_cons, hd, List.all_takeWhile]
        · intro c hc
          have hh := List.head?_dropWhile_not Char.isDigit rest
          rw [hc] at hh
          exact hh
      · rw [if_neg hd] at h
        cases h
  · rw [if_neg hp] at h
    cases h

theorem searchStatus_isSome_iff (l : List Char) :
    (searchStatus l).isSome = true ↔
      ∃ a d b, l = a ++ statusL ++ d :: b ∧ d.isDigit = true := by
  induction l with
  | nil =>
    simp only [searchStatus, Option.isSome_none]
    constructor
    · intro h; cases h
    · rintro ⟨a, d, b, heq, -⟩
      have := congrArg List.length heq
      simp [statusL_length] at this
      omega
  | cons c cs ih =>
    show (match matchStatusAt (c :: cs) with
      | some r => some r
      | none => searchStatus cs).isSome = true ↔ _
    cases hm : matchStatusAt (c :: cs) with
    | some r =>
      simp only [Option.isSome_some, true_iff]
      have := matchStatusAt_isSome_iff (c :: cs)
      rw [hm] at this
      obtain ⟨d, b, heq, hd⟩ := this.mp rfl
      exact ⟨[], d, b, by simpa using heq, hd⟩
    | none =>
      rw [ih]
      constructor
      · rintro ⟨a, d, b, heq, hd⟩
        exact ⟨c :: a, d, b, by simp [heq], hd⟩
      · rintro ⟨a, d, b, heq, hd⟩
        cases a with
        | nil =>
          exfalso
          have := matchStatusAt_isSome_iff (c :: cs)
          rw [hm] at this
          simp only [Option.isSome_none] at this
          have hfalse := this.mpr ⟨d, b, by simpa using heq, hd⟩
          cases hfalse
        | cons c' a' =>
          have heq' : c = c' ∧ cs = a' ++ statusL ++ d :: b := by
            simpa using heq
          exact ⟨a', d, b, heq'.2, hd⟩

theorem searchStatus_eq_some {l r : List Char} (h : searchStatus l = some r) :
    ∃ a b, l = a ++ statusL ++ r ++ b ∧ r ≠ [] ∧ r.all Char.isDigit = true ∧
      (∀ c, b.head? = some c → c.isDigit = false) := by
  induction l with
  | nil => cases h
  | cons c cs ih =>
    rw [show searchStatus (c :: cs) = (match matchStatusAt (c :: cs) with
      | some r => some r
      | none => searchStatus cs) from rfl] at h
    cases hm : matchStatusAt (c :: cs) with
    | some r' =>
      rw [hm] at h
      cases h
      obtain ⟨b, heq, hne, hall, hb⟩ := matchStatusAt_eq_some hm
      exact ⟨[], b, by simpa using heq, hne, hall, hb⟩
    | none =>
      rw [hm] at h
      obtain ⟨a, b, heq, hne, hall, hb⟩ := ih h
      exact ⟨c :: a, b, by simp [heq], hne, hall, hb⟩

/-! Substring containment agrees with an existential decomposition. -/

theorem containsSub_iff (n h : List Char) :
    containsSub n h = true ↔ ∃ a b, h = a ++ n ++ b := by
  induction h with
  | nil =>
    simp only [containsSub]
    constructor
    · intro hp
      obtain ⟨t, ht⟩ := List.isPrefixOf_iff_prefix.mp hp
      refine ⟨[], t, by simpa using ht.symm⟩
    · rintro ⟨a, b, heq⟩
      have h1 := List.append_eq_nil.mp heq.symm
      have h2 : n = [] := (List.append_eq_nil.mp h1.1).2
      subst h2
      exact List.isPrefixOf_iff_prefix.mpr List.nil_prefix
  | cons c t ih =>
    simp only [containsSub, Bool.or_eq_true, ih, List.isPrefixOf_iff_prefix]
    constructor
    · rintro (⟨s, hs⟩ | ⟨a, b, hab⟩)
      · exact ⟨[], s, by simpa using hs.symm⟩
      · exact ⟨c :: a, b, by simp [hab]⟩
    · rintro ⟨a, b, hab⟩
      cases a with
      | nil => exact Or.inl ⟨b, by simpa using hab.symm⟩
      | cons c' a' =>
        have : c = c' ∧ t = a' ++ n ++ b := by simpa using hab
        exact Or.inr ⟨a', b, this.2⟩

/-! Every `setex` TTL argument is the fixed TTL for the record kind. -/

theorem tweet_writes_ttl (env : Env) (cache : CacheState) (req : TweetRequest) :
    ∀ w ∈ (get_tweet_data env cache req).writes, w.ttl = ttlOfVal w.val := by
  simp only [get_tweet_data, get_tweet_data_body]
  split
  · split <;> try simp
    split <;> try simp
    split
    · split <;> simp
    · split <;> try simp
      split <;> try simp
      simp [set_cached_data, ttlOfVal]
      split <;> simp [ttlOfVal]
  · simp

theorem set_cached_data_snd (c : CacheState) (k : String) (v : CacheVal)
    (ttl : Nat) : (set_cached_data c k v ttl).2 = [⟨k, v, ttl⟩] := by
  unfold set_cached_data
  split <;> rfl

theorem engagement_writes_ttl (env : Env) (cache : CacheState)
    (req : EngagementRequest) :
    ∀ w ∈ (get_engagement_metrics env cache req).writes,
      w.ttl = ttlOfVal w.val := by
  have hin := tweet_writes_ttl env cache ⟨req.tweet_url, true, true⟩
  simp only [get_engagement_metrics, get_engagement_metrics_body]
  split
  · split <;> try simp
    split
    · split <;> simp
    · split
      · intro w hw
        exact hin w hw
      · intro w hw
        rw [set_cached_data_snd] at hw
        rcases List.mem_append.mp hw with h1 | h2
        · exact hin w h1
        · have : w = ⟨_, _, 60⟩ := List.mem_singleton.mp h2
          subst this
          simp [ttlOfVal]
  · simp

theorem user_writes_ttl (env : Env) (cache : CacheState) (req : UserInfoRequest) :
    ∀ w ∈ (get_user_info env cache req).writes, w.ttl = ttlOfVal w.val := by
  simp only [get_user_info, get_user_info_body]
  split
  · split
    · split <;> simp
    · split <;> try simp
      simp [set_cached_data, ttlOfVal]
      split <;> simp [ttlOfVal]
  · simp

theorem twikit_tweet_writes_ttl (env : Env) (cache : CacheState)
    (req : TweetRequest) :
    ∀ w ∈ (get_tweet_data_twikit env cache req).writes,
      w.ttl = ttlOfVal w.val := by
  simp only [get_tweet_data_twikit, get_tweet_data_twikit_body]
  split
  · split <;> try simp
    split
    · split <;> simp
    · split <;> try simp
      simp [set_cached_data, ttlOfVal]
      split <;> simp [ttlOfVal]
  · simp

theorem twikit_engagement_writes_ttl (env : Env) (cache : CacheState)
    (req : EngagementRequest) :
    ∀ w ∈ (get_engagement_metrics_twikit env cache req).writes,
      w.ttl = ttlOfVal w.val := by
  simp only [get_engagement_metrics_twikit, get_engagement_metrics_twikit_body]
  split
  · split <;> try simp
    split
    · split <;> simp
    · split <;> try simp
      simp [set_cached_data, ttlOfVal]
      split <;> simp [ttlOfVal]
  · simp

theorem twikit_user_writes_ttl (env : Env) (cache : CacheState)
    (req : UserInfoRequest) :
    ∀ w ∈ (get_user_info_twikit env cache req).writes,
      w.ttl = ttlOfVal w.val := by
  simp only [get_user_info_twikit, get_user_info_twikit_body]
  split
  · split
    · split <;> simp
    · split <;> try simp
      simp [set_cached_data, ttlOfVal]
      split <;> simp [ttlOfVal]
  · simp

/-! A failing or absent cache behaves exactly like an empty one, as far as
handler results are concerned. -/

theorem get_cached_data_failing_eq_empty :
    get_cached_data .failing = get_cached_data (.ok []) := by
  funext k
  rfl

theorem get_cached_data_absent_eq_empty :
    get_cached_data .absent = get_cached_data (.ok []) := by
  funext k
  rfl

theorem tweet_result_cache_blind (env : Env) (req : TweetRequest)
    (c₁ c₂ : CacheState) (hc : get_cached_data c₁ = get_cached_data c₂) :
    (get_tweet_data env c₁ req).result = (get_tweet_data env c₂ req).result := by
  simp only [get_tweet_data, get_tweet_data_body]
  rw [hc]
  repeat' (first | rfl | split)

theorem engagement_result_cache_blind (env : Env) (req : EngagementRequest)
    (c₁ c₂ : CacheState) (hc : get_cached_data c₁ = get_cached_data c₂) :
    (get_engagement_metrics env c₁ req).result =
      (get_engagement_metrics env c₂ req).result := by
  have hin := tweet_result_cache_blind env ⟨req.tweet_url, true, true⟩ c₁ c₂ hc
  simp only [get_engagement_metrics, get_engagement_metrics_body]
  rw [hc, hin]
  repeat' (first | rfl | split)

theorem user_result_cache_blind (env : Env) (req : UserInfoRequest)
    (c₁ c₂ : CacheState) (hc : get_cached_data c₁ = get_cached_data c₂) :
    (get_user_info env c₁ req).result = (get_user_info env c₂ req).result := by
  simp only [get_user_info, get_user_info_body]
  rw [hc]
  repeat' (first | rfl | split)

theorem twikit_tweet_result_cache_blind (env : Env) (req : TweetRequest)
    (c₁ c₂ : CacheState) (hc : get_cached_data c₁ = get_cached_data c₂) :
    (get_tweet_data_twikit env c₁ req).result =
      (get_tweet_data_twikit env c₂ req).result := by
  simp only [get_tweet_data_twikit, get_tweet_data_twikit_body]
  rw [hc]
  repeat' (first | rfl | split)

theorem twikit_engagement_result_cache_blind (env : Env)
    (req : EngagementRequest) (c₁ c₂ : CacheState)
    (hc : get_cached_data c₁ = get_cached_data c₂) :
    (get_engagement_metrics_twikit env c₁ req).result =
      (get_engagement_metrics_twikit env c₂ req).result := by
  simp only [get_engagement_metrics_twikit, get_engagement_metrics_twikit_body]
  rw [hc]
  repeat' (first | rfl | split)

theorem twikit_user_result_cache_blind (env : Env) (req : UserInfoRequest)
    (c₁ c₂ : CacheState) (hc : get_cached_data c₁ = get_cached_data c₂) :
    (get_user_info_twikit env c₁ req).result =
      (get_user_info_twikit env c₂ req).result := by
  simp only [get_user_info_twikit, get_user_info_twikit_body]
  rw [hc]
  repeat' (first | rfl | split)

/-! Cache-aside behaviour of the six endpoints. -/

theorem extract_tweet_id_cases (url : String) :
    (∃ id, extract_tweet_id url = .ok id) ∨
      extract_tweet_id url = .error (.valueError "Invalid tweet URL format") := by
  unfold extract_tweet_id
  cases searchStatus url.data <;> simp

theorem extract_username_cases (url : String) :
    (∃ u, extract_username url = .ok u) ∨
      extract_username url =
        .error (.valueError "Cannot extract username from URL") := by
  unfold extract_username
  cases searchUser url.data <;> simp

theorem tweet_hit (env : Env) (cache : CacheState) (req : TweetRequest)
    (id u : String) (t : TweetResponse)
    (hr : env.scweetReady = true)
    (hid : extract_tweet_id req.tweet_url = .ok id)
    (hu : extract_username req.tweet_url = .ok u)
    (hc : get_cached_data cache ("tweet:" ++ id) = some (.tweet t)) :
    get_tweet_data env cache req = ⟨.ok t, cache, ["tweet:" ++ id], [], []⟩ := by
  simp [get_tweet_data, get_tweet_data_body, hr, hid, hu, hc, decodeTweet,
    wrapVE]

theorem tweet_miss (env : Env) (entries : List (String × CacheVal))
    (req : TweetRequest) (id : String) (r : TweetResponse)
    (hr : env.scweetReady = true)
    (hid : extract_tweet_id req.tweet_url = .ok id)
    (hc : get_cached_data (.ok entries) ("tweet:" ++ id) = none)
    (hok : (get_tweet_data env (.ok entries) req).result = .ok r) :
    (get_tweet_data env (.ok entries) req).writes =
      [⟨"tweet:" ++ id, .tweet r, 300⟩] ∧
    get_cached_data (get_tweet_data env (.ok entries) req).cache
      ("tweet:" ++ id) = some (.tweet r) := by
  rcases extract_username_cases req.tweet_url with ⟨u, hu⟩ | hu
  · cases hsc : env.scrape u with
    | error e =>
      simp [get_tweet_data, get_tweet_data_body, hr, hid, hu, hc, hsc, wrapVE]
        at hok
    | ok results =>
      cases hf : results.find?
          (fun tw => id.data.isSuffixOf (tw.tweetId.getD "").data) with
      | none =>
        simp [get_tweet_data, get_tweet_data_body, hr, hid, hu, hc, hsc, hf,
          wrapVE] at hok
      | some td =>
        simp only [get_tweet_data, get_tweet_data_body, hr, hid, hu, hc, hsc,
          hf, if_true, wrapVE] at hok ⊢
        injection hok with hok'
        subst hok'
        constructor
        · simp [set_cached_data]
        · simp [set_cached_data, get_cached_data, List.lookup]
  · simp [get_tweet_data, get_tweet_data_body, hr, hid, hu, hc, wrapVE] at hok

theorem tweet_cache_shape (env : Env) (entries : List (String × CacheVal))
    (req : TweetRequest) :
    ∃ es, (get_tweet_data env (.ok entries) req).cache = .ok es := by
  simp only [get_tweet_data, get_tweet_data_body]
  repeat' (first | exact ⟨entries, rfl⟩ | (simp only [set_cached_data]; exact ⟨_, rfl⟩) | split)

theorem tweet_ok_populates (env : Env) (entries : List (String × CacheVal))
    (req : TweetRequest) (id : String) (r : TweetResponse)
    (hr : env.scweetReady = true)
    (hid : extract_tweet_id req.tweet_url = .ok id)
    (hok : (get_tweet_data env (.ok entries) req).result = .ok r) :
    get_cached_data (get_tweet_data env (.ok entries) req).cache
      ("tweet:" ++ id) = some (.tweet r) := by
  cases hc : get_cached_data (.ok entries) ("tweet:" ++ id) with
  | some cv =>
    rcases extract_username_cases req.tweet_url with ⟨u, hu⟩ | hu
    · cases cv with
      | tweet t =>
        have h := tweet_hit env (.ok entries) req id u t hr hid hu hc
        rw [h] at hok ⊢
        cases hok
        exact hc
      | eng e =>
        simp [get_tweet_data, get_tweet_data_body, hr, hid, hu, hc, decodeTweet,
          wrapVE] at hok
      | user v =>
        simp [get_tweet_data, get_tweet_data_body, hr, hid, hu, hc, decodeTweet,
          wrapVE] at hok
    · simp only [get_tweet_data, get_tweet_data_body, hr, hid, hu, if_true] at hok
      simp [wrapVE] at hok
  | none => exact (tweet_miss env entries req id r hr hid hc hok).2

theorem engagement_hit (env : Env) (cache : CacheState) (req : EngagementRequest)
    (id : String) (e : EngagementResponse)
    (hr : env.scweetReady = true)
    (hid : extract_tweet_id req.tweet_url = .ok id)
    (hc : get_cached_data cache ("engagement:" ++ id) = some (.eng e)) :
    get_engagement_metrics env cache req =
      ⟨.ok e, cache, ["engagement:" ++ id], [], []⟩ := by
  simp [get_engagement_metrics, get_engagement_metrics_body, hr, hid, hc,
    decodeEng, wrapAll]

theorem engagement_miss (env : Env) (entries : List (String × CacheVal))
    (req : EngagementRequest) (id : String) (r : EngagementResponse)
    (hr : env.scweetReady = true)
    (hid : extract_tweet_id req.tweet_url = .ok id)
    (hc : get_cached_data (.ok entries) ("engagement:" ++ id) = none)
    (hok : (get_engagement_metrics env (.ok entries) req).result = .ok r) :
    ∃ t : TweetResponse,
      (get_tweet_data env (.ok entries) ⟨req.tweet_url, true, true⟩).result =
        .ok t ∧
      r = ⟨t.engagement.likes, t.engagement.retweets, t.engagement.replies,
        env.now, "scweet"⟩ ∧
      (get_engagement_metrics env (.ok entries) req).writes =
        (get_tweet_data env (.ok entries) ⟨req.tweet_url, true, true⟩).writes ++
          [⟨"engagement:" ++ id, .eng r, 60⟩] ∧
      get_cached_data (get_engagement_metrics env (.ok entries) req).cache
        ("engagement:" ++ id) = some (.eng r) ∧
      (∀ k, k ≠ "engagement:" ++ id →
        get_cached_data (get_engagement_metrics env (.ok entries) req).cache k =
          get_cached_data
            (get_tweet_data env (.ok entries) ⟨req.tweet_url, true, true⟩).cache
            k) := by
  cases hin : (get_tweet_data env (.ok entries)
      ⟨req.tweet_url, true, true⟩).result with
  | error e =>
    simp [get_engagement_metrics, get_engagement_metrics_body, hr, hid, hc,
      hin, wrapAll] at hok
  | ok t =>
    obtain ⟨es, hes⟩ := tweet_cache_shape env entries ⟨req.tweet_url, true, true⟩
    have hOut : get_engagement_metrics env (.ok entries) req =
        ⟨.ok ⟨t.engagement.likes, t.engagement.retweets, t.engagement.replies,
            env.now, "scweet"⟩,
          .ok (("engagement:" ++ id,
            .eng ⟨t.engagement.likes, t.engagement.retweets,
              t.engagement.replies, env.now, "scweet"⟩) :: es),
          ("engagement:" ++ id) ::
            (get_tweet_data env (.ok entries)
              ⟨req.tweet_url, true, true⟩).reads,
          (get_tweet_data env (.ok entries) ⟨req.tweet_url, true, true⟩).writes
            ++ [⟨"engagement:" ++ id,
              .eng ⟨t.engagement.likes, t.engagement.retweets,
                t.engagement.replies, env.now, "scweet"⟩, 60⟩],
          (get_tweet_data env (.ok entries)
            ⟨req.tweet_url, true, true⟩).calls⟩ := by
      simp [get_engagement_metrics, get_engagement_metrics_body, hr, hid, hc,
        hin, hes, set_cached_data, wrapAll]
    rw [hOut] at hok
    injection hok with hok'
    subst hok'
    refine ⟨t, rfl, rfl, ?_, ?_, ?_⟩
    · rw [hOut]
    · rw [hOut]
      simp [get_cached_data, List.lookup]
    · intro k hk
      rw [hOut, hes]
      simp only [get_cached_data, List.lookup]
      rw [show (k == "engagement:" ++ id) = false from
        beq_eq_false_iff_ne.mpr hk]

theorem user_hit (env : Env) (cache : CacheState) (req : UserInfoRequest)
    (u : UserInfoResponse)
    (hr : env.scweetReady = true)
    (hc : get_cached_data cache ("user:" ++ req.username) = some (.user u)) :
    get_user_info env cache req =
      ⟨.ok u, cache, ["user:" ++ req.username], [], []⟩ := by
  simp [get_user_info, get_user_info_body, hr, hc, decodeUser, wrapAll]

theorem user_miss (env : Env) (entries : List (String × CacheVal))
    (req : UserInfoRequest) (r : UserInfoResponse)
    (hr : env.scweetReady = true)
    (hc : get_cached_data (.ok entries) ("user:" ++ req.username) = none)
    (hok : (get_user_info env (.ok entries) req).result = .ok r) :
    (get_user_info env (.ok entries) req).writes =
      [⟨"user:" ++ req.username, .user r, 1800⟩] ∧
    get_cached_data (get_user_info env (.ok entries) req).cache
      ("user:" ++ req.username) = some (.user r) := by
  cases hg : env.getUserInformation req.username with
  | error e =>
    simp [get_user_info, get_user_info_body, hr, hc, hg, wrapAll] at hok
  | ok o =>
    cases o with
    | none =>
      simp [get_user_info, get_user_info_body, hr, hc, hg, wrapAll] at hok
    | some u =>
      simp only [get_user_info, get_user_info_body, hr, hc, hg, if_true,
        wrapAll] at hok ⊢
      injection hok with hok'
      subst hok'
      constructor
      · simp [set_cached_data]
      · simp [set_cached_data, get_cached_data, List.lookup]

theorem twikit_tweet_hit (env : Env) (cache : CacheState) (req : TweetRequest)
    (id : String) (t : TweetResponse)
    (hr : env.twikitReady = true)
    (hid : extract_tweet_id req.tweet_url = .ok id)
    (hc : get_cached_data cache ("twikit_tweet:" ++ id) = some (.tweet t)) :
    get_tweet_data_twikit env cache req =
      ⟨.ok t, cache, ["twikit_tweet:" ++ id], [], []⟩ := by
  simp [get_tweet_data_twikit, get_tweet_data_twikit_body, hr, hid, hc,
    decodeTweet, wrapVE]

theorem twikit_tweet_miss (env : Env) (entries : List (String × CacheVal))
    (req : TweetRequest) (id : String) (r : TweetResponse)
    (hr : env.twikitReady = true)
    (hid : extract_tweet_id req.tweet_url = .ok id)
    (hc : get_cached_data (.ok entries) ("twikit_tweet:" ++ id) = none)
    (hok : (get_tweet_data_twikit env (.ok entries) req).result = .ok r) :
    (get_tweet_data_twikit env (.ok entries) req).writes =
      [⟨"twikit_tweet:" ++ id, .tweet r, 300⟩] ∧
    get_cached_data (get_tweet_data_twikit env (.ok entries) req).cache
      ("twikit_tweet:" ++ id) = some (.tweet r) := by
  cases hg : env.getTweetById id with
  | error e =>
    simp [get_tweet_data_twikit, get_tweet_data_twikit_body, hr, hid, hc, hg,
      wrapVE] at hok
  | ok o =>
    cases o with
    | none =>
      simp [get_tweet_data_twikit, get_tweet_data_twikit_body, hr, hid, hc, hg,
        wrapVE] at hok
    | some tw =>
      simp only [get_tweet_data_twikit, get_tweet_data_twikit_body, hr, hid,
        hc, hg, if_true, wrapVE] at hok ⊢
      injection hok with hok'
      subst hok'
      constructor
      · simp [set_cached_data]
      · simp [set_cached_data, get_cached_data, List.lookup]

theorem twikit_engagement_hit (env : Env) (cache : CacheState)
    (req : EngagementRequest) (id : String) (e : EngagementResponse)
    (hr : env.twikitReady = true)
    (hid : extract_tweet_id req.tweet_url = .ok id)
    (hc : get_cached_data cache ("twikit_engagement:" ++ id) = some (.eng e)) :
    get_engagement_metrics_twikit env cache req =
      ⟨.ok e, cache, ["twikit_engagement:" ++ id], [], []⟩ := by
  simp [get_engagement_metrics_twikit, get_engagement_metrics_twikit_body, hr,
    hid, hc, decodeEng, wrapAll]

theorem twikit_engagement_miss (env : Env) (entries : List (String × CacheVal))
    (req : EngagementRequest) (id : String) (r : EngagementResponse)
    (hr : env.twikitReady = true)
    (hid : extract_tweet_id req.tweet_url = .ok id)
    (hc : get_cached_data (.ok entries) ("twikit_engagement:" ++ id) = none)
    (hok : (get_engagement_metrics_twikit env (.ok entries) req).result = .ok r) :
    (get_engagement_metrics_twikit env (.ok entries) req).writes =
      [⟨"twikit_engagement:" ++ id, .eng r, 60⟩] ∧
    get_cached_data (get_engagement_metrics_twikit env (.ok entries) req).cache
      ("twikit_engagement:" ++ id) = some (.eng r) := by
  cases hg : env.getTweetById id with
  | error e =>
    simp [get_engagement_metrics_twikit, get_engagement_metrics_twikit_body,
      hr, hid, hc, hg, wrapAll] at hok
  | ok o =>
    cases o with
    | none =>
      simp [get_engagement_metrics_twikit, get_engagement_metrics_twikit_body,
        hr, hid, hc, hg, wrapAll] at hok
    | some tw =>
      simp only [get_engagement_metrics_twikit,
        get_engagement_metrics_twikit_body, hr, hid, hc, hg, if_true, wrapAll]
        at hok ⊢
      injection hok with hok'
      subst hok'
      constructor
      · simp [set_cached_data]
      · simp [set_cached_data, get_cached_data, List.lookup]

theorem twikit_user_hit (env : Env) (cache : CacheState) (req : UserInfoRequest)
    (u : UserInfoResponse)
    (hr : env.twikitReady = true)
    (hc : get_cached_data cache ("twikit_user:" ++ req.username) =
      some (.user u)) :
    get_user_info_twikit env cache req =
      ⟨.ok u, cache, ["twikit_user:" ++ req.username], [], []⟩ := by
  simp [get_user_info_twikit, get_user_info_twikit_body, hr, hc, decodeUser,
    wrapAll]

theorem twikit_user_miss (env : Env) (entries : List (String × CacheVal))
    (req : UserInfoRequest) (r : UserInfoResponse)
    (hr : env.twikitReady = true)
    (hc : get_cached_data (.ok entries) ("twikit_user:" ++ req.username) = none)
    (hok : (get_user_info_twikit env (.ok entries) req).result = .ok r) :
    (get_user_info_twikit env (.ok entries) req).writes =
      [⟨"twikit_user:" ++ req.username, .user r, 1800⟩] ∧
    get_cached_data (get_user_info_twikit env (.ok entries) req).cache
      ("twikit_user:" ++ req.username) = some (.user r) := by
  cases hg : env.getUserByScreenName req.username with
  | error e =>
    simp [get_user_info_twikit, get_user_info_twikit_body, hr, hc, hg, wrapAll]
      at hok
  | ok o =>
    cases o with
    | none =>
      simp [get_user_info_twikit, get_user_info_twikit_body, hr, hc, hg,
        wrapAll] at hok
    | some u =>
      simp only [get_user_info_twikit, get_user_info_twikit_body, hr, hc, hg,
        if_true, wrapAll] at hok ⊢
      injection hok with hok'
      subst hok'
      constructor
      · simp [set_cached_data]
      · simp [set_cached_data, get_cached_data, List.lookup]

/-! The Scweet tweet handler has no Twikit fallback. -/

theorem tweet_scrape_failure (env : Env) (cache : CacheState)
    (req : TweetRequest) (id u : String)
    (hr : env.scweetReady = true)
    (hid : extract_tweet_id req.tweet_url = .ok id)
    (hu : extract_username req.tweet_url = .ok u)
    (hc : get_cached_data cache ("tweet:" ++ id) = none)
    (hsc : env.scrape u = .error ()) :
    get_tweet_data env cache req =
      ⟨.error ⟨500, "Failed to scrape tweet data"⟩, cache, ["tweet:" ++ id],
        [], [.scrape u]⟩ := by
  simp [get_tweet_data, get_tweet_data_body, hr, hid, hu, hc, hsc, wrapVE]

theorem tweet_calls_scweet_only (env : Env) (cache : CacheState)
    (req : TweetRequest) :
    ∀ c ∈ (get_tweet_data env cache req).calls,
      (∃ s, c = .scrape s) ∨ (∃ s, c = .getUserInformation s) := by
  simp only [get_tweet_data, get_tweet_data_body, scweetUserInfoCalls]
  split
  · split
    · simp
    · split
      · simp
      · split
        · split <;> simp
        · split
          · simp
          · split
            · simp
            · split <;> simp
  · simp

/-! The cache keys each endpoint touches. -/

theorem tweet_keys (env : Env) (cache : CacheState) (req : TweetRequest) :
    ∀ k, (k ∈ (get_tweet_data env cache req).reads ∨
        k ∈ (get_tweet_data env cache req).writes.map CacheWrite.key) →
      ∃ id, extract_tweet_id req.tweet_url = .ok id ∧ k = "tweet:" ++ id := by
  simp only [get_tweet_data, get_tweet_data_body, set_cached_data_snd]
  split
  · split
    · simp
    · rename_i id heq
      split
      · simp
      · split
        · split
          · intro k hk
            exact ⟨id, heq, by simpa using hk⟩
          · intro k hk
            exact ⟨id, heq, by simpa using hk⟩
        · split
          · intro k hk
            exact ⟨id, heq, by simpa using hk⟩
          · split
            · intro k hk
              exact ⟨id, heq, by simpa using hk⟩
            · intro k hk
              exact ⟨id, heq, by simpa using hk⟩
  · simp

theorem engagement_keys (env : Env) (cache : CacheState)
    (req : EngagementRequest) :
    ∀ k, (k ∈ (get_engagement_metrics env cache req).reads ∨
        k ∈ (get_engagement_metrics env cache req).writes.map CacheWrite.key) →
      ∃ id, extract_tweet_id req.tweet_url = .ok id ∧
        (k = "engagement:" ++ id ∨ k = "tweet:" ++ id) := by
  have hin := tweet_keys env cache ⟨req.tweet_url, true, true⟩
  simp only [get_engagement_metrics, get_engagement_metrics_body,
    set_cached_data_snd]
  split
  · split
    · simp
    · rename_i id heq
      split
      · split
        · intro k hk
          exact ⟨id, heq, Or.inl (by simpa using hk)⟩
        · intro k hk
          exact ⟨id, heq, Or.inl (by simpa using hk)⟩
      · split
        · intro k hk
          simp only [List.mem_cons] at hk
          rcases hk with (h | h) | h
          · exact ⟨id, heq, Or.inl h⟩
          · obtain ⟨id', heq', hk'⟩ := hin k (Or.inl h)
            rw [heq] at heq'
            injection heq' with h''
            exact ⟨id, heq, Or.inr (by rw [hk', h''])⟩
          · obtain ⟨id', heq', hk'⟩ := hin k (Or.inr h)
            rw [heq] at heq'
            injection heq' with h''
            exact ⟨id, heq, Or.inr (by rw [hk', h''])⟩
        · intro k hk
          simp only [List.mem_cons, List.map_append, List.mem_append,
            List.map_cons, List.map_nil] at hk
          rcases hk with (h | h) | (h | h)
          · exact ⟨id, heq, Or.inl h⟩
          · obtain ⟨id', heq', hk'⟩ := hin k (Or.inl h)
            rw [heq] at heq'
            injection heq' with h''
            exact ⟨id, heq, Or.inr (by rw [hk', h''])⟩
          · obtain ⟨id', heq', hk'⟩ := hin k (Or.inr h)
            rw [heq] at heq'
            injection heq' with h''
            exact ⟨id, heq, Or.inr (by rw [hk', h''])⟩
          · exact ⟨id, heq, Or.inl (by simpa using h)⟩
  · simp

theorem user_keys (env : Env) (cache : CacheState) (req : UserInfoRequest) :
    ∀ k, (k ∈ (get_user_info env cache req).reads ∨
        k ∈ (get_user_info env cache req).writes.map CacheWrite.key) →
      k = "user:" ++ req.username := by
  simp only [get_user_info, get_user_info_body, set_cached_data_snd]
  split
  · split
    · split <;> (intro k hk; simpa using hk)
    · split
      · intro k hk; simpa using hk
      · intro k hk; simpa using hk
      · intro k hk; simpa using hk
  · simp

theorem twikit_tweet_keys (env : Env) (cache : CacheState) (req : TweetRequest) :
    ∀ k, (k ∈ (get_tweet_data_twikit env cache req).reads ∨
        k ∈ (get_tweet_data_twikit env cache req).writes.map CacheWrite.key) →
      ∃ id, extract_tweet_id req.tweet_url = .ok id ∧
        k = "twikit_tweet:" ++ id := by
  simp only [get_tweet_data_twikit, get_tweet_data_twikit_body,
    set_cached_data_snd]
  split
  · split
    · simp
    · rename_i id heq
      split
      · split
        · intro k hk
          exact ⟨id, heq, by simpa using hk⟩
        · intro k hk
          exact ⟨id, heq, by simpa using hk⟩
      · split
        · intro k hk
          exact ⟨id, heq, by simpa using hk⟩
        · intro k hk
          exact ⟨id, heq, by simpa using hk⟩
        · intro k hk
          exact ⟨id, heq, by simpa using hk⟩
  · simp

theorem twikit_engagement_keys (env : Env) (cache : CacheState)
    (req : EngagementRequest) :
    ∀ k, (k ∈ (get_engagement_metrics_twikit env cache req).reads ∨
        k ∈ (get_engagement_metrics_twikit env cache req).writes.map
          CacheWrite.key) →
      ∃ id, extract_tweet_id req.tweet_url = .ok id ∧
        k = "twikit_engagement:" ++ id := by
  simp only [get_engagement_metrics_twikit, get_engagement_metrics_twikit_body,
    set_cached_data_snd]
  split
  · split
    · simp
    · rename_i id heq
      split
      · split
        · intro k hk
          exact ⟨id, heq, by simpa using hk⟩
        · intro k hk
          exact ⟨id, heq, by simpa using hk⟩
      · split
        · intro k hk
          exact ⟨id, heq, by simpa using hk⟩
        · intro k hk
          exact ⟨id, heq, by simpa using hk⟩
        · intro k hk
          exact ⟨id, heq, by simpa using hk⟩
  · simp

theorem twikit_user_keys (env : Env) (cache : CacheState)
    (req : UserInfoRequest) :
    ∀ k, (k ∈ (get_user_info_twikit env cache req).reads ∨
        k ∈ (get_user_info_twikit env cache req).writes.map CacheWrite.key) →
      k = "twikit_user:" ++ req.username := by
  simp only [get_user_info_twikit, get_user_info_twikit_body,
    set_cached_data_snd]
  split
  · split
    · split <;> (intro k hk; simpa using hk)
    · split
      · intro k hk; simpa using hk
      · intro k hk; simpa using hk
      · intro k hk; simpa using hk
  · simp

/-! Shape of the error responses each endpoint can produce. -/

theorem tweet_err_shape (env : Env) (cache : CacheState) (req : TweetRequest)
    (e : HTTPErr) (h : (get_tweet_data env cache req).result = .error e) :
    (e.status = 400 ∨ e.status = 500 ∨ e.status = 503) ∧
    (e.status = 500 → e.detail = "Failed to scrape tweet data") ∧
    (e.status = 503 → e.detail = "Scweet service not initialized") := by
  cases hrb : env.scweetReady with
  | false =>
    simp only [get_tweet_data, hrb, Bool.false_eq_true, if_false] at h
    injection h with h'
    subst h'
    simp
  | true =>
    cases hb : (get_tweet_data_body env cache req).result with
    | ok v =>
      simp [get_tweet_data, hrb, hb, wrapVE] at h
    | error pe =>
      cases pe <;>
        simp only [get_tweet_data, hrb, if_true, hb, wrapVE] at h <;>
        (injection h with h'; subst h'; simp)

theorem engagement_err_shape (env : Env) (cache : CacheState)
    (req : EngagementRequest) (e : HTTPErr)
    (h : (get_engagement_metrics env cache req).result = .error e) :
    (e.status = 500 ∨ e.status = 503) ∧
    (e.status = 500 → e.detail = "Failed to get engagement metrics") ∧
    (e.status = 503 → e.detail = "Scweet service not initialized") := by
  cases hrb : env.scweetReady with
  | false =>
    simp only [get_engagement_metrics, hrb, Bool.false_eq_true, if_false] at h
    injection h with h'
    subst h'
    simp
  | true =>
    cases hb : (get_engagement_metrics_body env cache req).result with
    | ok v =>
      simp [get_engagement_metrics, hrb, hb, wrapAll] at h
    | error pe =>
      simp only [get_engagement_metrics, hrb, if_true, hb, wrapAll] at h
      injection h with h'
      subst h'
      simp

theorem user_err_shape (env : Env) (cache : CacheState) (req : UserInfoRequest)
    (e : HTTPErr) (h : (get_user_info env cache req).result = .error e) :
    (e.status = 500 ∨ e.status = 503) ∧
    (e.status = 500 → e.detail = "Failed to get user information") ∧
    (e.status = 503 → e.detail = "Scweet service not initialized") := by
  cases hrb : env.scweetReady with
  | false =>
    simp only [get_user_info, hrb, Bool.false_eq_true, if_false] at h
    injection h with h'
    subst h'
    simp
  | true =>
    cases hb : (get_user_info_body env cache req).result with
    | ok v =>
      simp [get_user_info, hrb, hb, wrapAll] at h
    | error pe =>
      simp only [get_user_info, hrb, if_true, hb, wrapAll] at h
      injection h with h'
      subst h'
      simp

theorem twikit_tweet_err_shape (env : Env) (cache : CacheState)
    (req : TweetRequest) (e : HTTPErr)
    (h : (get_tweet_data_twikit env cache req).result = .error e) :
    (e.status = 400 ∨ e.status = 500 ∨ e.status = 503) ∧
    (e.status = 500 → e.detail = "Failed to fetch tweet data via Twikit") ∧
    (e.status = 503 → e.detail = "Twikit service not initialized") := by
  cases hrb : env.twikitReady with
  | false =>
    simp only [get_tweet_data_twikit, hrb, Bool.false_eq_true, if_false] at h
    injection h with h'
    subst h'
    simp
  | true =>
    cases hb : (get_tweet_data_twikit_body env cache req).result with
    | ok v =>
      simp [get_tweet_data_twikit, hrb, hb, wrapVE] at h
    | error pe =>
      cases pe <;>
        simp only [get_tweet_data_twikit, hrb, if_true, hb, wrapVE] at h <;>
        (injection h with h'; subst h'; simp)

theorem twikit_engagement_err_shape (env : Env) (cache : CacheState)
    (req : EngagementRequest) (e : HTTPErr)
    (h : (get_engagement_metrics_twikit env cache req).result = .error e) :
    (e.status = 500 ∨ e.status = 503) ∧
    (e.status = 500 → e.detail = "Failed to get engagement metrics via Twikit") ∧
    (e.status = 503 → e.detail = "Twikit service not initialized") := by
  cases hrb : env.twikitReady with
  | false =>
    simp only [get_engagement_metrics_twikit, hrb, Bool.false_eq_true,
      if_false] at h
    injection h with h'
    subst h'
    simp
  | true =>
    cases hb : (get_engagement_metrics_twikit_body env cache req).result with
    | ok v =>
      simp [get_engagement_metrics_twikit, hrb, hb, wrapAll] at h
    | error pe =>
      simp only [get_engagement_metrics_twikit, hrb, if_true, hb, wrapAll] at h
      injection h with h'
      subst h'
      simp

theorem twikit_user_err_shape (env : Env) (cache : CacheState)
    (req : UserInfoRequest) (e : HTTPErr)
    (h : (get_user_info_twikit env cache req).result = .error e) :
    (e.status = 500 ∨ e.status = 503) ∧
    (e.status = 500 → e.detail = "Failed to get user information via Twikit") ∧
    (e.status = 503 → e.detail = "Twikit service not initialized") := by
  cases hrb : env.twikitReady with
  | false =>
    simp only [get_user_info_twikit, hrb, Bool.false_eq_true, if_false] at h
    injection h with h'
    subst h'
    simp
  | true =>
    cases hb : (get_user_info_twikit_body env cache req).result with
    | ok v =>
      simp [get_user_info_twikit, hrb, hb, wrapAll] at h
    | error pe =>
      simp only [get_user_info_twikit, hrb, if_true, hb, wrapAll] at h
      injection h with h'
      subst h'
      simp

/-! ## Claim theorems -/

/-- C1: every lookup endpoint is cache-aside.  When the request's cache key
holds a serialized response record, the handler returns exactly that record,
with no library call and no cache write; when the key is absent and the
handler succeeds, it stores the returned response under that key (with the
endpoint's TTL) and the returned response equals the stored record.
Hypotheses: the relevant library client is initialised, the identifiers
extract successfully, and (for the miss direction) the cache is healthy. -/
theorem C1_cache_aside :
    (∀ env cache req id u t, env.scweetReady = true →
      extract_tweet_id req.tweet_url = .ok id →
      extract_username req.tweet_url = .ok u →
      get_cached_data cache ("tweet:" ++ id) = some (.tweet t) →
      get_tweet_data env cache req =
        ⟨.ok t, cache, ["tweet:" ++ id], [], []⟩) ∧
    (∀ env entries req id r, env.scweetReady = true →
      extract_tweet_id req.tweet_url = .ok id →
      get_cached_data (.ok entries) ("tweet:" ++ id) = none →
      (get_tweet_data env (.ok entries) req).result = .ok r →
      (get_tweet_data env (.ok entries) req).writes =
        [⟨"tweet:" ++ id, .tweet r, 300⟩] ∧
      get_cached_data (get_tweet_data env (.ok entries) req).cache
        ("tweet:" ++ id) = some (.tweet r)) ∧
    (∀ env cache req id e, env.scweetReady = true →
      extract_tweet_id req.tweet_url = .ok id →
      get_cached_data cache ("engagement:" ++ id) = some (.eng e) →
      get_engagement_metrics env cache req =
        ⟨.ok e, cache, ["engagement:" ++ id], [], []⟩) ∧
    (∀ env entries req id r, env.scweetReady = true →
      extract_tweet_id req.tweet_url = .ok id →
      get_cached_data (.ok entries) ("engagement:" ++ id) = none →
      (get_engagement_metrics env (.ok entries) req).result = .ok r →
      (∃ pre, (get_engagement_metrics env (.ok entries) req).writes =
        pre ++ [⟨"engagement:" ++ id, .eng r, 60⟩]) ∧
      get_cached_data (get_engagement_metrics env (.ok entries) req).cache
        ("engagement:" ++ id) = some (.eng r)) ∧
    (∀ env cache req u, env.scweetReady = true →
      get_cached_data cache ("user:" ++ req.username) = some (.user u) →
      get_user_info env cache req =
        ⟨.ok u, cache, ["user:" ++ req.username], [], []⟩) ∧
    (∀ env entries req r, env.scweetReady = true →
      get_cached_data (.ok entries) ("user:" ++ req.username) = none →
      (get_user_info env (.ok entries) req).result = .ok r →
      (get_user_info env (.ok entries) req).writes =
        [⟨"user:" ++ req.username, .user r, 1800⟩] ∧
      get_cached_data (get_user_info env (.ok entries) req).cache
        ("user:" ++ req.username) = some (.user r)) ∧
    (∀ env cache req id t, env.twikitReady = true →
      extract_tweet_id req.tweet_url = .ok id →
      get_cached_data cache ("twikit_tweet:" ++ id) = some (.tweet t) →
      get_tweet_data_twikit env cache req =
        ⟨.ok t, cache, ["twikit_tweet:" ++ id], [], []⟩) ∧
    (∀ env entries req id r, env.twikitReady = true →
      extract_tweet_id req.tweet_url = .ok id →
      get_cached_data (.ok entries) ("twikit_tweet:" ++ id) = none →
      (get_tweet_data_twikit env (.ok entries) req).result = .ok r →
      (get_tweet_data_twikit env (.ok entries) req).writes =
        [⟨"twikit_tweet:" ++ id, .tweet r, 300⟩] ∧
      get_cached_data (get_tweet_data_twikit env (.ok entries) req).cache
        ("twikit_tweet:" ++ id) = some (.tweet r)) ∧
    (∀ env cache req id e, env.twikitReady = true →
      extract_tweet_id req.tweet_url = .ok id →
      get_cached_data cache ("twikit_engagement:" ++ id) = some (.eng e) →
      get_engagement_metrics_twikit env cache req =
        ⟨.ok e, cache, ["twikit_engagement:" ++ id], [], []⟩) ∧
    (∀ env entries req id r, env.twikitReady = true →
      extract_tweet_id req.tweet_url = .ok id →
      get_cached_data (.ok entries) ("twikit_engagement:" ++ id) = none →
      (get_engagement_metrics_twikit env (.ok entries) req).result = .ok r →
      (get_engagement_metrics_twikit env (.ok entries) req).writes =
        [⟨"twikit_engagement:" ++ id, .eng r, 60⟩] ∧
      get_cached_data
        (get_engagement_metrics_twikit env (.ok entries) req).cache
        ("twikit_engagement:" ++ id) = some (.eng r)) ∧
    (∀ env cache req u, env.twikitReady = true →
      get_cached_data cache ("twikit_user:" ++ req.username) =
        some (.user u) →
      get_user_info_twikit env cache req =
        ⟨.ok u, cache, ["twikit_user:" ++ req.username], [], []⟩) ∧
    (∀ env entries req r, env.twikitReady = true →
      get_cached_data (.ok entries) ("twikit_user:" ++ req.username) = none →
      (get_user_info_twikit env (.ok entries) req).result = .ok r →
      (get_user_info_twikit env (.ok entries) req).writes =
        [⟨"twikit_user:" ++ req.username, .user r, 1800⟩] ∧
      get_cached_data (get_user_info_twikit env (.ok entries) req).cache
        ("twikit_user:" ++ req.username) = some (.user r)) := by
  refine ⟨tweet_hit, tweet_miss, engagement_hit, ?_, user_hit, user_miss,
    twikit_tweet_hit, twikit_tweet_miss, twikit_engagement_hit,
    twikit_engagement_miss, twikit_user_hit, twikit_user_miss⟩
  intro env entries req id r hr hid hc hok
  obtain ⟨t, -, -, hw, hlook, -⟩ :=
    engagement_miss env entries req id r hr hid hc hok
  exact ⟨⟨_, hw⟩, hlook⟩

/-- Witness for C1: a concrete cache hit on `POST /tweet` returns the cached
record with no library call and no write. -/
theorem C1_cache_aside_witness :
    get_tweet_data envC cacheHitC reqC =
      ⟨.ok rC, cacheHitC, ["tweet:123"], [], []⟩ :=
  C1_cache_aside.1 envC cacheHitC reqC "123" "u" rC rfl (by decide) (by decide)
    (by decide)

/-- C2 counterexample: with an empty cache, a failing Scweet scrape and a
Twikit source that would succeed, `POST /tweet` returns HTTP 500, writes
nothing, and never calls Twikit — there is no secondary-source fallback. -/
theorem C2_flow_counterexample :
    get_tweet_data envScrapeFail (.ok []) reqC =
      ⟨.error ⟨500, "Failed to scrape tweet data"⟩, .ok [], ["tweet:123"], [],
        [.scrape "u"]⟩ ∧
    envScrapeFail.getTweetById "123" = .ok (some ttC) := by
  constructor
  · simp [get_tweet_data, get_tweet_data_body, envScrapeFail, envC, wrapVE,
      reqC, get_cached_data, extract_tweet_id, extract_username]
    decide
  · rfl

/-- C2 (amended): the tweet-lookup flow is cache lookup, then the Scweet
scrape on a miss, then cache write and return; when the Scweet call fails
the handler returns a fixed HTTP 500 and never calls the Twikit library —
the Twikit path exists only as the separate `/twikit/*` endpoints. -/
theorem C2_flow_amended :
    (∀ env cache req id u, env.scweetReady = true →
      extract_tweet_id req.tweet_url = .ok id →
      extract_username req.tweet_url = .ok u →
      get_cached_data cache ("tweet:" ++ id) = none →
      env.scrape u = .error () →
      get_tweet_data env cache req =
        ⟨.error ⟨500, "Failed to scrape tweet data"⟩, cache, ["tweet:" ++ id],
          [], [.scrape u]⟩) ∧
    (∀ env cache req, ∀ c ∈ (get_tweet_data env cache req).calls,
      (∃ s, c = .scrape s) ∨ (∃ s, c = .getUserInformation s)) :=
  ⟨tweet_scrape_failure, tweet_calls_scweet_only⟩

/-- Witness for C2 (amended) at a concrete failing scrape. -/
theorem C2_flow_amended_witness :
    get_tweet_data envScrapeFail (.ok []) reqC =
      ⟨.error ⟨500, "Failed to scrape tweet data"⟩, .ok [], ["tweet:123"], [],
        [.scrape "u"]⟩ :=
  C2_flow_amended.1 envScrapeFail (.ok []) reqC "123" "u" rfl (by decide)
    (by decide) (by decide) rfl

/-- C3: every cache write (on any of the six endpoints) uses the fixed TTL
of its record kind — 300 s for tweet records, 60 s for engagement records,
1800 s for user-profile records. -/
theorem C3_fixed_ttls :
    ∀ env cache,
      (∀ req, ∀ w ∈ (get_tweet_data env cache req).writes,
        w.ttl = ttlOfVal w.val) ∧
      (∀ req, ∀ w ∈ (get_engagement_metrics env cache req).writes,
        w.ttl = ttlOfVal w.val) ∧
      (∀ req, ∀ w ∈ (get_user_info env cache req).writes,
        w.ttl = ttlOfVal w.val) ∧
      (∀ req, ∀ w ∈ (get_tweet_data_twikit env cache req).writes,
        w.ttl = ttlOfVal w.val) ∧
      (∀ req, ∀ w ∈ (get_engagement_metrics_twikit env cache req).writes,
        w.ttl = ttlOfVal w.val) ∧
      (∀ req, ∀ w ∈ (get_user_info_twikit env cache req).writes,
        w.ttl = ttlOfVal w.val) :=
  fun env cache =>
    ⟨tweet_writes_ttl env cache, engagement_writes_ttl env cache,
      user_writes_ttl env cache, twikit_tweet_writes_ttl env cache,
      twikit_engagement_writes_ttl env cache,
      twikit_user_writes_ttl env cache⟩

/-- Witness for C3: the concrete tweet write carries TTL 300. -/
theorem C3_fixed_ttls_witness :
    (⟨"tweet:123", .tweet rC, 300⟩ : CacheWrite) ∈
      (get_tweet_data envC (.ok []) reqC).writes ∧
    (⟨"tweet:123", .tweet rC, 300⟩ : CacheWrite).ttl =
      ttlOfVal (⟨"tweet:123", .tweet rC, 300⟩ : CacheWrite).val :=
  ⟨by decide, (C3_fixed_ttls envC (.ok [])).1 reqC _ (by decide)⟩

/-- If a string equals `p ++ id` then `p` is a boolean prefix of it. -/
theorem prefix_of_append_eq {k p id : String} (h : k = p ++ id) :
    p.data.isPrefixOf k.data = true := by
  subst h
  exact List.isPrefixOf_iff_prefix.mpr ⟨id.data, (String.data_append p id).symm⟩

/-- C4 counterexample: `POST /twikit/tweet` writes the key
`twikit_tweet:123`, which is not of the form `tweet:`, `engagement:` or
`user:` followed by an identifier. -/
theorem C4_keys_counterexample :
    (get_tweet_data_twikit envC (.ok []) reqC).writes.map CacheWrite.key =
      ["twikit_tweet:123"] ∧
    ¬ ∃ id : String, "twikit_tweet:123" = "tweet:" ++ id ∨
      "twikit_tweet:123" = "engagement:" ++ id ∨
      "twikit_tweet:123" = "user:" ++ id := by
  constructor
  · decide
  · rintro ⟨id, h | h | h⟩
    · exact absurd (prefix_of_append_eq h) (by decide)
    · exact absurd (prefix_of_append_eq h) (by decide)
    · exact absurd (prefix_of_append_eq h) (by decide)

/-- C4 (amended): every cache key read or written by any endpoint is one of
the six prefixes `tweet:`, `engagement:`, `user:`, `twikit_tweet:`,
`twikit_engagement:`, `twikit_user:` followed by the request's extracted
identifier (tweet ID or username); the Scweet engagement endpoint also
touches the `tweet:` key through its delegation to the tweet handler. -/
theorem C4_keys_amended :
    (∀ env cache req, ∀ k,
      (k ∈ (get_tweet_data env cache req).reads ∨
        k ∈ (get_tweet_data env cache req).writes.map CacheWrite.key) →
      ∃ id, extract_tweet_id req.tweet_url = .ok id ∧ k = "tweet:" ++ id) ∧
    (∀ env cache req, ∀ k,
      (k ∈ (get_engagement_metrics env cache req).reads ∨
        k ∈ (get_engagement_metrics env cache req).writes.map CacheWrite.key) →
      ∃ id, extract_tweet_id req.tweet_url = .ok id ∧
        (k = "engagement:" ++ id ∨ k = "tweet:" ++ id)) ∧
    (∀ env cache req, ∀ k,
      (k ∈ (get_user_info env cache req).reads ∨
        k ∈ (get_user_info env cache req).writes.map CacheWrite.key) →
      k = "user:" ++ req.username) ∧
    (∀ env cache req, ∀ k,
      (k ∈ (get_tweet_data_twikit env cache req).reads ∨
        k ∈ (get_tweet_data_twikit env cache req).writes.map CacheWrite.key) →
      ∃ id, extract_tweet_id req.tweet_url = .ok id ∧
        k = "twikit_tweet:" ++ id) ∧
    (∀ env cache req, ∀ k,
      (k ∈ (get_engagement_metrics_twikit env cache req).reads ∨
        k ∈ (get_engagement_metrics_twikit env cache req).writes.map
          CacheWrite.key) →
      ∃ id, extract_tweet_id req.tweet_url = .ok id ∧
        k = "twikit_engagement:" ++ id) ∧
    (∀ env cache req, ∀ k,
      (k ∈ (get_user_info_twikit env cache req).reads ∨
        k ∈ (get_user_info_twikit env cache req).writes.map CacheWrite.key) →
      k = "twikit_user:" ++ req.username) :=
  ⟨tweet_keys, engagement_keys, user_keys, twikit_tweet_keys,
    twikit_engagement_keys, twikit_user_keys⟩

/-- Witness for C4 (amended): the concrete tweet read key. -/
theorem C4_keys_amended_witness :
    ∃ id, extract_tweet_id reqC.tweet_url = .ok id ∧
      "tweet:123" = "tweet:" ++ id :=
  C4_keys_amended.1 envC (.ok []) reqC "tweet:123" (Or.inl (by decide))

/-- C5 counterexample: two malformed tweet URLs produce HTTP 400 responses
whose details are the two different `ValueError` messages, so the error
detail does vary with the failure. -/
theorem C5_errors_counterexample :
    (get_tweet_data envC (.ok [])
      ⟨"https://x.com/u/nothing", true, true⟩).result =
        .error ⟨400, "Invalid tweet URL format"⟩ ∧
    (get_tweet_data envC (.ok []) ⟨"foo/status/123", true, true⟩).result =
      .error ⟨400, "Cannot extract username from URL"⟩ ∧
    ("Invalid tweet URL format" : String) ≠
      "Cannot extract username from URL" :=
  ⟨by decide, by decide, by decide⟩

/-- C5 (amended): every failure of any lookup endpoint is converted to an
HTTP 4xx/5xx response; the 500 and 503 responses carry a fixed per-endpoint
message, while the 400 responses of the two tweet endpoints carry the
`ValueError`'s own message, which varies with which validation failed. -/
theorem C5_errors_amended :
    (∀ env cache req e, (get_tweet_data env cache req).result = .error e →
      (e.status = 400 ∨ e.status = 500 ∨ e.status = 503) ∧
      (e.status = 500 → e.detail = "Failed to scrape tweet data") ∧
      (e.status = 503 → e.detail = "Scweet service not initialized")) ∧
    (∀ env cache req e,
      (get_engagement_metrics env cache req).result = .error e →
      (e.status = 500 ∨ e.status = 503) ∧
      (e.status = 500 → e.detail = "Failed to get engagement metrics") ∧
      (e.status = 503 → e.detail = "Scweet service not initialized")) ∧
    (∀ env cache req e, (get_user_info env cache req).result = .error e →
      (e.status = 500 ∨ e.status = 503) ∧
      (e.status = 500 → e.detail = "Failed to get user information") ∧
      (e.status = 503 → e.detail = "Scweet service not initialized")) ∧
    (∀ env cache req e,
      (get_tweet_data_twikit env cache req).result = .error e →
      (e.status = 400 ∨ e.status = 500 ∨ e.status = 503) ∧
      (e.status = 500 → e.detail = "Failed to fetch tweet data via Twikit") ∧
      (e.status = 503 → e.detail = "Twikit service not initialized")) ∧
    (∀ env cache req e,
      (get_engagement_metrics_twikit env cache req).result = .error e →
      (e.status = 500 ∨ e.status = 503) ∧
      (e.status = 500 →
        e.detail = "Failed to get engagement metrics via Twikit") ∧
      (e.status = 503 → e.detail = "Twikit service not initialized")) ∧
    (∀ env cache req e,
      (get_user_info_twikit env cache req).result = .error e →
      (e.status = 500 ∨ e.status = 503) ∧
      (e.status = 500 →
        e.detail = "Failed to get user information via Twikit") ∧
      (e.status = 503 → e.detail = "Twikit service not initialized")) :=
  ⟨tweet_err_shape, engagement_err_shape, user_err_shape,
    twikit_tweet_err_shape, twikit_engagement_err_shape,
    twikit_user_err_shape⟩

/-- Witness for C5 (amended) at a concrete malformed URL. -/
theorem C5_errors_amended_witness :
    ((⟨400, "Invalid tweet URL format"⟩ : HTTPErr).status = 400 ∨
      (⟨400, "Invalid tweet URL format"⟩ : HTTPErr).status = 500 ∨
      (⟨400, "Invalid tweet URL format"⟩ : HTTPErr).status = 503) ∧
    ((⟨400, "Invalid tweet URL format"⟩ : HTTPErr).status = 500 →
      (⟨400, "Invalid tweet URL format"⟩ : HTTPErr).detail =
        "Failed to scrape tweet data") ∧
    ((⟨400, "Invalid tweet URL format"⟩ : HTTPErr).status = 503 →
      (⟨400, "Invalid tweet URL format"⟩ : HTTPErr).detail =
        "Scweet service not initialized") :=
  C5_errors_amended.1 envC (.ok []) ⟨"https://x.com/u/nothing", true, true⟩
    ⟨400, "Invalid tweet URL format"⟩ (by decide)

/-- C6: the normalization steps of `get_tweet_data` and `get_user_info` fill
absent source fields with defaults — engagement counts and follower counts
default to 0, `verified` to `false`, `display_name` to the username, `bio`
and `content` to the empty string. -/
theorem C6_defaults :
    (∀ id u td ui now, td.text = none →
      (mkTweetResponse id u td ui now).content = "") ∧
    (∀ id u td ui now, td.likes = none →
      (mkTweetResponse id u td ui now).engagement.likes = 0) ∧
    (∀ id u td ui now, td.retweets = none →
      (mkTweetResponse id u td ui now).engagement.retweets = 0) ∧
    (∀ id u td ui now, td.replies = none →
      (mkTweetResponse id u td ui now).engagement.replies = 0) ∧
    (∀ id u td ui now, ui.bind ScweetUser.name = none →
      (mkTweetResponse id u td ui now).author.display_name = u) ∧
    (∀ id u td ui now, ui.bind ScweetUser.verified = none →
      (mkTweetResponse id u td ui now).author.verified = false) ∧
    (∀ id u td ui now, ui.bind ScweetUser.followers = none →
      (mkTweetResponse id u td ui now).author.followers_count = 0) ∧
    (∀ id u td ui now, ui.bind ScweetUser.following = none →
      (mkTweetResponse id u td ui now).author.following_count = 0) ∧
    (∀ un u, u.name = none → (mkUserResponse un u).display_name = un) ∧
    (∀ un u, u.description = none → (mkUserResponse un u).bio = "") ∧
    (∀ un u, u.followers = none → (mkUserResponse un u).followers_count = 0) ∧
    (∀ un u, u.following = none → (mkUserResponse un u).following_count = 0) ∧
    (∀ un u, u.verified = none → (mkUserResponse un u).verified = false) := by
  refine ⟨?_, ?_, ?_, ?_, ?_, ?_, ?_, ?_, ?_, ?_, ?_, ?_, ?_⟩ <;>
    (intros; rename_i h; simp [mkTweetResponse, mkUserResponse, h])

/-- Witness for C6 at a tweet and a user record with all fields absent. -/
theorem C6_defaults_witness :
    (mkTweetResponse "999" "u" tdNone (some suNone) "t").content = "" ∧
    (mkTweetResponse "999" "u" tdNone (some suNone)
      "t").engagement.likes = 0 ∧
    (mkTweetResponse "999" "u" tdNone (some suNone)
      "t").author.display_name = "u" ∧
    (mkUserResponse "u" suNone).display_name = "u" ∧
    (mkUserResponse "u" suNone).bio = "" ∧
    (mkUserResponse "u" suNone).verified = false :=
  ⟨C6_defaults.1 "999" "u" tdNone (some suNone) "t" rfl,
    C6_defaults.2.1 "999" "u" tdNone (some suNone) "t" rfl,
    C6_defaults.2.2.2.2.1 "999" "u" tdNone (some suNone) "t" rfl,
    C6_defaults.2.2.2.2.2.2.2.2.1 "u" suNone rfl,
    C6_defaults.2.2.2.2.2.2.2.2.2.1 "u" suNone rfl,
    C6_defaults.2.2.2.2.2.2.2.2.2.2.2.2 "u" suNone rfl⟩

/-- C7: `extract_tweet_id` succeeds exactly when the URL contains
`/status/` followed by at least one digit; on success it returns a maximal
digit run immediately following an occurrence of `/status/`; on failure it
raises `ValueError("Invalid tweet URL format")`, which the two tweet
endpoints convert to an HTTP 400 response with that message. -/
theorem C7_tweet_id_extraction :
    (∀ url : String, (∃ id, extract_tweet_id url = .ok id) ↔
      ∃ a d b, url.data = a ++ statusL ++ d :: b ∧ d.isDigit = true) ∧
    (∀ url id, extract_tweet_id url = .ok id →
      ∃ a b, url.data = a ++ statusL ++ id.data ++ b ∧ id.data ≠ [] ∧
        id.data.all Char.isDigit = true ∧
        (∀ c, b.head? = some c → c.isDigit = false)) ∧
    (∀ url, (¬ ∃ id, extract_tweet_id url = .ok id) →
      extract_tweet_id url = .error (.valueError "Invalid tweet URL format")) ∧
    (∀ env cache req m, env.scweetReady = true →
      extract_tweet_id req.tweet_url = .error (.valueError m) →
      (get_tweet_data env cache req).result = .error ⟨400, m⟩) ∧
    (∀ env cache req m, env.twikitReady = true →
      extract_tweet_id req.tweet_url = .error (.valueError m) →
      (get_tweet_data_twikit env cache req).result = .error ⟨400, m⟩) := by
  refine ⟨?_, ?_, ?_, ?_, ?_⟩
  · intro url
    rw [show (∃ id, extract_tweet_id url = .ok id) ↔
        (searchStatus url.data).isSome = true by
      unfold extract_tweet_id
      cases searchStatus url.data <;> simp]
    exact searchStatus_isSome_iff url.data
  · intro url id h
    unfold extract_tweet_id at h
    cases hs : searchStatus url.data with
    | none => rw [hs] at h; cases h
    | some r =>
      rw [hs] at h
      injection h with h'
      subst h'
      exact searchStatus_eq_some hs
  · intro url h
    unfold extract_tweet_id at h ⊢
    cases hs : searchStatus url.data with
    | none => rfl
    | some r => exact absurd ⟨⟨r⟩, by rw [hs]⟩ h
  · intro env cache req m hr hid
    simp [get_tweet_data, get_tweet_data_body, hr, hid, wrapVE]
  · intro env cache req m hr hid
    simp [get_tweet_data_twikit, get_tweet_data_twikit_body, hr, hid, wrapVE]

/-- Witness for C7 at a concrete URL. -/
theorem C7_tweet_id_extraction_witness :
    ∃ a b, ("https://x.com/u/status/123x".data : List Char) =
      a ++ statusL ++ ("123" : String).data ++ b ∧
      ("123" : String).data ≠ [] ∧
      ("123" : String).data.all Char.isDigit = true ∧
      (∀ c, b.head? = some c → c.isDigit = false) :=
  C7_tweet_id_extraction.2.1 "https://x.com/u/status/123x" "123" (by decide)

/-- C8: a cache failure never fails a request — reads on an unset or raising
cache behave as misses, writes there are no-ops on the state, and every
endpoint's result under such a cache equals its result under an empty
(all-miss) cache. -/
theorem C8_cache_failure_is_miss :
    (∀ k, get_cached_data .absent k = none) ∧
    (∀ k, get_cached_data .failing k = none) ∧
    (∀ k v ttl, (set_cached_data .absent k v ttl).1 = .absent) ∧
    (∀ k v ttl, (set_cached_data .failing k v ttl).1 = .failing) ∧
    (∀ env req, (get_tweet_data env .failing req).result =
        (get_tweet_data env (.ok []) req).result ∧
      (get_tweet_data env .absent req).result =
        (get_tweet_data env (.ok []) req).result) ∧
    (∀ env req, (get_engagement_metrics env .failing req).result =
        (get_engagement_metrics env (.ok []) req).result ∧
      (get_engagement_metrics env .absent req).result =
        (get_engagement_metrics env (.ok []) req).result) ∧
    (∀ env req, (get_user_info env .failing req).result =
        (get_user_info env (.ok []) req).result ∧
      (get_user_info env .absent req).result =
        (get_user_info env (.ok []) req).result) ∧
    (∀ env req, (get_tweet_data_twikit env .failing req).result =
        (get_tweet_data_twikit env (.ok []) req).result ∧
      (get_tweet_data_twikit env .absent req).result =
        (get_tweet_data_twikit env (.ok []) req).result) ∧
    (∀ env req, (get_engagement_metrics_twikit env .failing req).result =
        (get_engagement_metrics_twikit env (.ok []) req).result ∧
      (get_engagement_metrics_twikit env .absent req).result =
        (get_engagement_metrics_twikit env (.ok []) req).result) ∧
    (∀ env req, (get_user_info_twikit env .failing req).result =
        (get_user_info_twikit env (.ok []) req).result ∧
      (get_user_info_twikit env .absent req).result =
        (get_user_info_twikit env (.ok []) req).result) := by
  refine ⟨fun _ => rfl, fun _ => rfl, fun _ _ _ => rfl, fun _ _ _ => rfl,
    ?_, ?_, ?_, ?_, ?_, ?_⟩ <;> intro env req
  · exact ⟨tweet_result_cache_blind env req _ _ get_cached_data_failing_eq_empty,
      tweet_result_cache_blind env req _ _ get_cached_data_absent_eq_empty⟩
  · exact ⟨engagement_result_cache_blind env req _ _
        get_cached_data_failing_eq_empty,
      engagement_result_cache_blind env req _ _
        get_cached_data_absent_eq_empty⟩
  · exact ⟨user_result_cache_blind env req _ _ get_cached_data_failing_eq_empty,
      user_result_cache_blind env req _ _ get_cached_data_absent_eq_empty⟩
  · exact ⟨twikit_tweet_result_cache_blind env req _ _
        get_cached_data_failing_eq_empty,
      twikit_tweet_result_cache_blind env req _ _
        get_cached_data_absent_eq_empty⟩
  · exact ⟨twikit_engagement_result_cache_blind env req _ _
        get_cached_data_failing_eq_empty,
      twikit_engagement_result_cache_blind env req _ _
        get_cached_data_absent_eq_empty⟩
  · exact ⟨twikit_user_result_cache_blind env req _ _
        get_cached_data_failing_eq_empty,
      twikit_user_result_cache_blind env req _ _
        get_cached_data_absent_eq_empty⟩

/-- The tweet cache key and the engagement cache key of the same identifier
are distinct (their lengths differ). -/
theorem tweet_key_ne_engagement_key (id : String) :
    ("tweet:" ++ id) ≠ ("engagement:" ++ id) := by
  intro h
  have hlen := congrArg (fun s => s.data.length) h
  simp [String.data_append] at hlen

/-- C9: on an engagement-cache miss, the engagement endpoint delegates to
the tweet handler — its likes/retweets/replies equal the engagement field of
the tweet endpoint's response for the same URL, and the tweet cache entry is
populated as a side effect. -/
theorem C9_engagement_delegates :
    ∀ env entries req id r, env.scweetReady = true →
      extract_tweet_id req.tweet_url = .ok id →
      get_cached_data (.ok entries) ("engagement:" ++ id) = none →
      (get_engagement_metrics env (.ok entries) req).result = .ok r →
      ∃ t : TweetResponse,
        (get_tweet_data env (.ok entries)
          ⟨req.tweet_url, true, true⟩).result = .ok t ∧
        r.likes = t.engagement.likes ∧
        r.retweets = t.engagement.retweets ∧
        r.replies = t.engagement.replies ∧
        get_cached_data (get_engagement_metrics env (.ok entries) req).cache
          ("tweet:" ++ id) = some (.tweet t) := by
  intro env entries req id r hr hid hc hok
  obtain ⟨t, hres, hrR, -, -, hother⟩ :=
    engagement_miss env entries req id r hr hid hc hok
  refine ⟨t, hres, by rw [hrR], by rw [hrR], by rw [hrR], ?_⟩
  rw [hother ("tweet:" ++ id) (tweet_key_ne_engagement_key id)]
  exact tweet_ok_populates env entries ⟨req.tweet_url, true, true⟩ id t hr hid
    hres

/-- Witness for C9 at a concrete engagement request. -/
theorem C9_engagement_delegates_witness :
    ∃ t : TweetResponse,
      (get_tweet_data envC (.ok [])
        ⟨reqEngC.tweet_url, true, true⟩).result = .ok t ∧
      rEngC.likes = t.engagement.likes ∧
      rEngC.retweets = t.engagement.retweets ∧
      rEngC.replies = t.engagement.replies ∧
      get_cached_data (get_engagement_metrics envC (.ok []) reqEngC).cache
        ("tweet:" ++ "123") = some (.tweet t) :=
  C9_engagement_delegates envC [] reqEngC "123" rEngC rfl (by decide)
    (by decide) (by decide)

/-- C10: the `is_from_layeredge_community` flag equals the deterministic,
case-insensitive check that the lower-cased content contains `@layeredge` or
`$edgen`, and both tweet normalizers set the flag from the tweet text. -/
theorem C10_layeredge_flag :
    (∀ c : String, check_layeredge_community c = true ↔
      ((∃ a b, lowerL c.data = a ++ "@layeredge".data ++ b) ∨
       (∃ a b, lowerL c.data = a ++ "$edgen".data ++ b))) ∧
    (∀ c₁ c₂ : String, lowerL c₁.data = lowerL c₂.data →
      check_layeredge_community c₁ = check_layeredge_community c₂) ∧
    (∀ id u td ui now,
      (mkTweetResponse id u td ui now).is_from_layeredge_community =
        check_layeredge_community (td.text.getD "")) ∧
    (∀ id t inc now,
      (mkTwikitTweetResponse id t inc now).is_from_layeredge_community =
        check_layeredge_community (t.text.getD "")) := by
  refine ⟨?_, ?_, ?_, ?_⟩
  · intro c
    simp only [check_layeredge_community, Bool.or_eq_true, containsSub_iff]
  · intro c₁ c₂ h
    simp only [check_layeredge_community, h]
  · intro id u td ui now
    rfl
  · intro id t inc now
    rfl

/-- Witness for C10: upper- and lower-case spellings agree. -/
theorem C10_layeredge_flag_witness :
    check_layeredge_community "go @LayerEdge" =
      check_layeredge_community "go @layeredge" :=
  C10_layeredge_flag.2.1 "go @LayerEdge" "go @layeredge" (by decide)

end ScweetService
